import Mathlib

/-!
Verification development for the TAFE leak-detection core.

This file gives a shallow embedding, over exact rationals, of the
statistical utilities (`statistical_utils.py`), the scoring helpers
(`leak_scoring.py`), the per-site signal scorer and incident state
machine (`Model_1_realtime_simulation.py`), and the false-alarm pattern
matching engine (`false_alarm_patterns.py`), together with theorems
settling the stated properties of those components.

Modelling conventions:
 * calendar dates are integers (days since an arbitrary epoch); date
   arithmetic `(d2 - d1).days` becomes integer subtraction;
 * floats are `ℚ` (all the arithmetic involved is exact on the inputs
   used by the claims);
 * python dicts keyed by date strings are association lists
   `List (Int × _)` looked up with `List.lookup`;
 * python sets of signal names are `Finset String`;
 * a `KeyError`-raising lookup of a daily metric is modelled as a
   defaulted lookup (`getD 0`); the state machine only ever queries
   dates present in the daily table, so the default is never observed
   on the runs the theorems quantify over.
-/

set_option maxHeartbeats 4000000
set_option maxRecDepth 100000

/- Core marks the rational-arithmetic kernels `@[irreducible]`, which
blocks `decide`-style evaluation of the embedded functions on concrete
inputs; restore the default reducibility (the definitions still go
through the kernel unchanged). -/
set_option allowUnsafeReducibility true
attribute [semireducible] Rat.sub Rat.add Rat.mul Rat.inv
attribute [semireducible] Rat.maybeNormalize Rat.normalize Rat.ofScientific

namespace Leak

/-! ## Sorting helper (ascending insertion sort, used for medians) -/

def insertAsc (x : ℚ) : List ℚ → List ℚ
  | [] => [x]
  | y :: ys => if x ≤ y then x :: y :: ys else y :: insertAsc x ys

def sortAsc (l : List ℚ) : List ℚ := l.foldr insertAsc []

def insertAscI (x : Int) : List Int → List Int
  | [] => [x]
  | y :: ys => if x ≤ y then x :: y :: ys else y :: insertAscI x ys

def sortAscI (l : List Int) : List Int := l.foldr insertAscI []

/-- `np.median` of a list: sort, take the middle element (odd length) or
the mean of the two middle elements (even length); 0 on empty input
(the empty case is only ever reached behind `robust_median`'s guard). -/
def npMedian (l : List ℚ) : ℚ :=
  let s := sortAsc l
  let n := s.length
  if n = 0 then 0
  else if n % 2 = 1 then s.getD (n / 2) 0
  else (s.getD (n / 2 - 1) 0 + s.getD (n / 2) 0) / 2

/-- `np.mean` of a list (sum / length; the empty case, 0 here, is never
used by `detect_cusum` because its loop body is empty for short input). -/
def npMean (l : List ℚ) : ℚ := l.sum / (l.length : ℚ)

/-- Python/numpy `max` on rationals, written with an explicit
decidable test so that terms reduce in the kernel. -/
def pyMax (a b : ℚ) : ℚ := if a ≤ b then b else a

def pyMin (a b : ℚ) : ℚ := if a ≤ b then a else b

def pyAbs (x : ℚ) : ℚ := if x < 0 then -x else x

def pyMaxI (a b : Int) : Int := if a ≤ b then b else a

/-! ## statistical_utils.py -/

/-- `robust_median(series)`: median, returning 0 for an empty series. -/
def robust_median (l : List ℚ) : ℚ :=
  if l.length > 0 then npMedian l else 0

/-- `robust_mad(series)`: median absolute deviation from the median;
0 for an empty series. -/
def robust_mad (l : List ℚ) : ℚ :=
  let med := robust_median l
  if l.length > 0 then npMedian (l.map fun x => pyAbs (x - med)) else 0

/-- The `s_plus` recursion of `detect_cusum`, started at index 1 with
`s_plus[0] = 0`: each step is `max 0 (s + (x - mean - k*mad))`. -/
def cusumTail (mean k mad : ℚ) : ℚ → List ℚ → List ℚ
  | _, [] => []
  | s, x :: xs =>
      let s' := pyMax 0 (s + (x - mean - k * mad))
      s' :: cusumTail mean k mad s' xs

/-- The full `s_plus` array of `detect_cusum` (`np.zeros(len)` with the
loop filling indices `1..len-1`). -/
def sPlus (l : List ℚ) (k mad : ℚ) : List ℚ :=
  match l with
  | [] => []
  | _ :: xs => 0 :: cusumTail (npMean l) k mad 0 xs

/-- `detect_cusum(series, k, h, mad)`: 1 if any entry of `s_plus`
exceeds `h*mad`, else 0. -/
def detect_cusum (l : List ℚ) (k h mad : ℚ) : ℚ :=
  if (sPlus l k mad).any (fun s => s > h * mad) then 1 else 0

/-! ## leak_scoring.py -/

/-- One `{low, high}` severity band, as in `severity_bands_lph`. -/
abbrev SeverityBands := List (String × ℚ × ℚ)

/-- `get_severity(delta_nf, severity_bands)`: first band whose
`[low, high)` interval contains the delta; otherwise `S5` for
`delta_nf ≥ 10000`, else `S1`. -/
def get_severity (delta_nf : ℚ) (bands : SeverityBands) : String :=
  match bands.find? (fun b => b.2.1 ≤ delta_nf ∧ delta_nf < b.2.2) with
  | some b => b.1
  | none => if delta_nf ≥ 10000 then "S5" else "S1"

/-- The five sub-scores, in the dict insertion order of
`signals_and_score`. -/
structure SubScores where
  MNF : ℚ
  RESIDUAL : ℚ
  CUSUM : ℚ
  AFTERHRS : ℚ
  BURSTBF : ℚ
  deriving Repr, DecidableEq

def SubScores.values (s : SubScores) : List ℚ :=
  [s.MNF, s.RESIDUAL, s.CUSUM, s.AFTERHRS, s.BURSTBF]

/-- `get_confidence(sub_scores, persistence_days, delta_nf, nf_mad)`. -/
def get_confidence (s : SubScores) (persistence_days : Int)
    (delta_nf nf_mad : ℚ) : ℚ :=
  let sig_agree : ℚ := ((s.values.filter (fun v => v ≥ 7/10)).length : ℚ)
  let snr := delta_nf / pyMax nf_mad 1
  let norm_snr := pyMin 1 (snr / 10)
  let norm_persist := pyMin 1 ((persistence_days : ℚ) / 10)
  let norm_agree := sig_agree / 5
  let confidence := (3/10 * norm_snr + 3/10 * norm_persist + 4/10 * norm_agree) * 100
  pyMin 100 (pyMax 0 confidence)

structure Gate where
  fast_min : Int
  default_max : Int
  deriving Repr, DecidableEq

structure PersistenceGates where
  lt100 : Gate
  r100to200 : Gate
  r200to1000 : Gate
  ge1000 : Gate
  deriving Repr, DecidableEq

/-- `get_persistence_needed(delta_nf, sig_agree, confidence, gates)`:
bucket by deltaNF, take the fast gate when ≥3 signals agree and
confidence ≥ 70, floor the result at 3. -/
def get_persistence_needed (delta_nf : ℚ) (sig_agree : Int)
    (confidence : ℚ) (gates : PersistenceGates) : Int :=
  let gate :=
    if delta_nf < 100 then gates.lt100
    else if delta_nf < 200 then gates.r100to200
    else if delta_nf < 1000 then gates.r200to1000
    else gates.ge1000
  let needed := if sig_agree ≥ 3 ∧ confidence ≥ 70 then gate.fast_min else gate.default_max
  pyMaxI 3 needed

/-! ## Model_1_realtime_simulation.py — detector data and signal scorer -/

/-- One hourly row of the preprocessed `self.df`
(`date`, `hour`, `flow`). -/
structure HourRow where
  date : Int
  hour : Int
  flow : ℚ
  deriving Repr, DecidableEq

/-- One row of the daily table `self.daily` (index date, `NF_d`, `A_d`). -/
structure DailyRow where
  date : Int
  NF_d : ℚ
  A_d : ℚ
  deriving Repr, DecidableEq

structure ScoreWeights where
  MNF : ℚ
  RESIDUAL : ℚ
  CUSUM : ℚ
  AFTERHRS : ℚ
  BURSTBF : ℚ
  deriving Repr, DecidableEq

/-- The configuration keys consumed by the detector core. -/
structure Cfg where
  night_start : Int
  night_end : Int
  after_hours_start : Int
  after_hours_end : Int
  baseline_window_days : Int
  abs_floor_lph : ℚ
  sustained_after_hours_delta_kl : ℚ
  spike_multiplier : ℚ
  score_weights : ScoreWeights
  persistence_gates : PersistenceGates
  severity_bands_lph : SeverityBands
  cusum_k : ℚ
  cusum_h : ℚ
  merge_gap_days : Int
  deriving Repr, DecidableEq

/-- A frozen per-date signal snapshot, as cached in
`self.signal_components_by_date`. -/
structure SigComp where
  sub_scores : SubScores
  leak_score : ℚ
  deltaNF : ℚ
  NF_MAD : ℚ
  deriving Repr, DecidableEq

/-- The per-site detector context: preprocessed hourly data, the daily
table, configuration, excluded dates, and the frozen caches restored
before `state_machine` runs (empty on a fresh run). -/
structure DetectorCtx where
  site_id : String
  df : List HourRow
  daily : List DailyRow
  cfg : Cfg
  excluded_dates : List Int
  sigMap0 : List (Int × SigComp)
  confMap0 : List (Int × ℚ)
  deriving Repr

/-- `self.daily.loc[d]` as an optional lookup. -/
def dailyLookup (ctx : DetectorCtx) (d : Int) : Option DailyRow :=
  ctx.daily.find? (fun r => r.date = d)

/-- The rows of the trailing baseline window `[d - window, d)` for date
`d`, with excluded dates removed (shared by the NF and A baselines,
since both columns live on the same daily index). -/
def windowRows (ctx : DetectorCtx) (d : Int) : List DailyRow :=
  ctx.daily.filter (fun r =>
    d - ctx.cfg.baseline_window_days ≤ r.date ∧ r.date < d ∧
      r.date ∉ ctx.excluded_dates)

/-- `get_rolling_baseline(d, metric, daily_series)`: robust median and
MAD of the metric over the trailing window. -/
def get_rolling_baseline (ctx : DetectorCtx) (d : Int)
    (proj : DailyRow → ℚ) : ℚ × ℚ :=
  let sub := (windowRows ctx d).map proj
  (robust_median sub, robust_mad sub)

/-- `get_hourly_profile(h, d)`: robust median and MAD of the flow at
hour `h` over the trailing window, excluding excluded dates. -/
def get_hourly_profile (ctx : DetectorCtx) (h : Int) (d : Int) : ℚ × ℚ :=
  let sub := (ctx.df.filter (fun r =>
    d - ctx.cfg.baseline_window_days ≤ r.date ∧ r.date < d ∧
      r.hour = h ∧ r.date ∉ ctx.excluded_dates)).map (·.flow)
  (robust_median sub, robust_mad sub)

/-- The after-hours mask of `signals_and_score` / `baselining`:
`hour >= after_hours_start OR hour < after_hours_end`. -/
def isAfterHours (cfg : Cfg) (h : Int) : Prop :=
  h ≥ cfg.after_hours_start ∨ h < cfg.after_hours_end

instance (cfg : Cfg) (h : Int) : Decidable (isAfterHours cfg h) := by
  unfold isAfterHours; infer_instance

/-- `self.daily["NF_d"][:d]` — the NF column restricted to index labels
`≤ d` (pandas label slicing is inclusive), in index order. -/
def histNF (ctx : DetectorCtx) (d : Int) : List ℚ :=
  (ctx.daily.filter (fun r => r.date ≤ d)).map (·.NF_d)

/-- `self.daily["A_d"][:d]`. -/
def histA (ctx : DetectorCtx) (d : Int) : List ℚ :=
  (ctx.daily.filter (fun r => r.date ≤ d)).map (·.A_d)

/-- Clamp to `[0, 1]` (`max(0, min(1, x))`). -/
def clamp01 (x : ℚ) : ℚ := pyMax 0 (pyMin 1 x)

/-- `signals_and_score(d)`: the five sub-scores, the combined leak
score, `deltaNF` and `NF_MAD` for date `d`. Direct transcription of the
source; the daily row for `d` is looked up with default 0 (the caller
only passes dates present in the daily index). -/
def signals_and_score (ctx : DetectorCtx) (d : Int) : SigComp :=
  let cfg := ctx.cfg
  let NF_d := ((dailyLookup ctx d).map (·.NF_d)).getD 0
  let nfBase := get_rolling_baseline ctx d (·.NF_d)
  let NF_base := nfBase.1
  let NF_MAD := nfBase.2
  let deltaNF := pyMax 0 (NF_d - NF_base)
  let thresh := pyMax (3 * NF_MAD) cfg.abs_floor_lph
  let s_MNF :=
    if deltaNF > thresh
    then pyMax 0 (pyMin 1 ((deltaNF - thresh) / (thresh + cfg.abs_floor_lph)))
    else 0
  -- RESIDUAL
  let ahRows := ctx.df.filter (fun r => r.date = d ∧ isAfterHours cfg r.hour)
  let profiles := ahRows.map (fun r => get_hourly_profile ctx r.hour d)
  let residuals := List.zipWith (fun (r : HourRow) (p : ℚ × ℚ) => r.flow - p.1) ahRows profiles
  let mad_rs := profiles.map (·.2)
  let s_RES :=
    if residuals.length > 0 then
      let med_res := npMedian residuals
      let med_mad_r := npMedian mad_rs
      let pos_frac := ((residuals.filter (fun r => r > 0)).length : ℚ) / (residuals.length : ℚ)
      let thresh_r := pyMax (3 * med_mad_r) cfg.abs_floor_lph
      if pos_frac ≥ 7/10 ∧ med_res > thresh_r then 1
      else pyMax 0 (pyMin 1 (med_res / (2 * thresh_r)))
    else 0
  -- CUSUM
  let hist_NF := histNF ctx d
  let cusum_NF := detect_cusum hist_NF cfg.cusum_k cfg.cusum_h (robust_mad hist_NF)
  let hist_A := histA ctx d
  let cusum_A := detect_cusum hist_A cfg.cusum_k cfg.cusum_h (robust_mad hist_A)
  let s_CUSUM := pyMax cusum_NF cusum_A
  -- AFTERHRS
  let A_d := ((dailyLookup ctx d).map (·.A_d)).getD 0
  let aBase := get_rolling_baseline ctx d (·.A_d)
  let deltaA := A_d - aBase.1
  let threshA := pyMax (3 * aBase.2) cfg.sustained_after_hours_delta_kl
  let s_AH :=
    match dailyLookup ctx (d - 1) with
    | none => 0
    | some prevRow =>
        let prev_deltaA := prevRow.A_d - (get_rolling_baseline ctx (d - 1) (·.A_d)).1
        if deltaA > threshA ∧ prev_deltaA > threshA then 1
        else pyMax 0 (pyMin 1 (deltaA / (2 * threshA)))
  -- BURSTBF
  let dayRows := ctx.df.filter (fun r => r.date = d)
  let s_BF :=
    if dayRows ≠ [] ∧
        dayRows.any (fun r => r.flow > (get_hourly_profile ctx r.hour d).1 * cfg.spike_multiplier)
    then
      match dailyLookup ctx (d + 1) with
      | some nextRow =>
          let nb := get_rolling_baseline ctx (d + 1) (·.NF_d)
          if nextRow.NF_d - nb.1 > pyMax (3 * nb.2) cfg.abs_floor_lph then 1 else 0
      | none => 0
    else 0
  let sub_scores : SubScores :=
    { MNF := s_MNF, RESIDUAL := s_RES, CUSUM := s_CUSUM, AFTERHRS := s_AH, BURSTBF := s_BF }
  let w := cfg.score_weights
  let leak_score :=
    (w.MNF * s_MNF + w.RESIDUAL * s_RES + w.CUSUM * s_CUSUM +
      w.AFTERHRS * s_AH + w.BURSTBF * s_BF) * 100
  { sub_scores := sub_scores
    leak_score := pyMin 100 (pyMax 0 leak_score)
    deltaNF := deltaNF
    NF_MAD := NF_MAD }

/-- `np.percentile(x, 10)` with numpy's default linear interpolation. -/
def percentile10 (l : List ℚ) : ℚ :=
  let s := sortAsc l
  let n := s.length
  if n = 0 then 0
  else
    let rank : ℚ := (n - 1 : Int) / 10
    let i : ℕ := (Int.toNat (Rat.floor rank))
    let f : ℚ := rank - (i : ℚ)
    let lo := s.getD i 0
    let hi := s.getD (i + 1) lo
    lo + f * (hi - lo)

/-- The sorted distinct dates having night-window rows (pandas groupby
keys are sorted ascending). -/
def nightDates (ctx : DetectorCtx) : List Int :=
  sortAscI ((ctx.df.filter (fun r =>
    ctx.cfg.night_start ≤ r.hour ∧ r.hour < ctx.cfg.night_end)).map (·.date)).dedup

/-- `get_adaptive_threshold`: `theta_min = max(abs_floor_lph,
robust_median(mnf) + 2 * robust_mad(mnf))` where `mnf` is the per-date
10th percentile of night-window flow over the whole history. -/
def get_adaptive_threshold (ctx : DetectorCtx) : ℚ :=
  let nightRows := ctx.df.filter (fun r =>
    ctx.cfg.night_start ≤ r.hour ∧ r.hour < ctx.cfg.night_end)
  let mnf := (nightDates ctx).map (fun dt =>
    percentile10 ((nightRows.filter (fun r => r.date = dt)).map (·.flow)))
  pyMax ctx.cfg.abs_floor_lph (robust_median mnf + 2 * robust_mad mnf)

/-! ## Model_1_realtime_simulation.py — incident state machine -/

/-- Digit-string parsing (`int(...)` on an unsigned decimal literal),
structural on the character list. -/
def parseDigitsAux : Nat → List Char → Option Nat
  | acc, [] => some acc
  | acc, c :: cs =>
      if '0' ≤ c ∧ c ≤ '9'
      then parseDigitsAux (acc * 10 + (c.toNat - '0'.toNat)) cs
      else none

/-- `sev_rank(s)`: `int(str(s).lstrip("S"))` with fallback 1 on parse
failure. -/
def sevRank (s : String) : Int :=
  match s.toList.dropWhile (· = 'S') with
  | [] => 1
  | cs =>
      match parseDigitsAux 0 cs with
      | some n => (n : Int)
      | none => 1

/-- A per-date entry of an incident's `signal_components_by_date`
archive (sub-scores, deltaNF, NF_MAD, frozen confidence). -/
structure SigEntry where
  sub_scores : SubScores
  deltaNF : ℚ
  NF_MAD : ℚ
  confidence : ℚ
  deriving Repr, DecidableEq

/-- An incident record. `close_reason` is `none` until the incident is
closed; `alert_date` is `none` only before first assignment. -/
structure Incident where
  site_id : String
  status : String
  start_day : Int
  last_day : Int
  max_deltaNF : ℚ
  severity_max : String
  days_persisted : Int
  reason_codes : Finset String
  volume_lost_kL : ℚ
  confidence : ℚ
  sigComps : List (Int × SigEntry)
  alert_date : Option Int
  close_reason : Option String
  deriving DecidableEq

/-- One daily UI record. Keys that a given emission site omits are
`none`. -/
structure DailyOut where
  status : String
  severity : Option String
  confidence : Option ℚ
  deltaNF : Option ℚ
  days_persisted : Option Int
  est_volume_lost_kL : Option ℚ
  reason_codes : Option String
  next_action : String
  suppressed : Option String
  deriving Repr, DecidableEq

/-- The mutable state of the day loop. `active` and `lastCommitted` are
indices into `incidents`, mirroring the python aliasing of the dicts
held in `self.incidents`. -/
structure MState where
  sigMap : List (Int × SigComp)
  confMap : List (Int × ℚ)
  incidents : List Incident
  active : Option Nat
  lastCommitted : Option Nat
  suppressions : List (Int × String)
  outputs : List (Int × DailyOut)

/-- In-place mutation of the list cell at index `i` (python dict
mutation through an alias). -/
def listModify (l : List Incident) (i : Nat) (f : Incident → Incident) : List Incident :=
  match l, i with
  | [], _ => []
  | x :: xs, 0 => f x :: xs
  | x :: xs, n + 1 => x :: listModify xs n f

/-- Names of the signals with positive score, in dict order
(`signals_fired`). -/
def firedList (s : SubScores) : List String :=
  (if s.MNF > 0 then ["MNF"] else []) ++
  (if s.RESIDUAL > 0 then ["RESIDUAL"] else []) ++
  (if s.CUSUM > 0 then ["CUSUM"] else []) ++
  (if s.AFTERHRS > 0 then ["AFTERHRS"] else []) ++
  (if s.BURSTBF > 0 then ["BURSTBF"] else [])

/-- `set(signals_fired)`. -/
def firedSet (s : SubScores) : Finset String := (firedList s).toFinset

/-- Signal-cache step: reuse the frozen `signal_components_by_date`
entry for `d` if present, else compute fresh and store it. -/
def resolveSig (ctx : DetectorCtx) (sigMap : List (Int × SigComp)) (d : Int) :
    SigComp × List (Int × SigComp) :=
  match sigMap.lookup d with
  | some c => (c, sigMap)
  | none =>
      let c := signals_and_score ctx d
      (c, (d, c) :: sigMap)

/-- Confidence-cache step: reuse the frozen `confidence_by_date` entry
for `d` if present, else compute fresh and freeze it. -/
def resolveConf (confMap : List (Int × ℚ)) (s : SubScores)
    (persistence_days : Int) (deltaNF NF_MAD : ℚ) (d : Int) :
    ℚ × List (Int × ℚ) :=
  match confMap.lookup d with
  | some v => (v, confMap)
  | none =>
      let v := get_confidence s persistence_days deltaNF NF_MAD
      (v, (d, v) :: confMap)

/-- Next-day NF delta at or below `theta_min` (false when the next day
is absent from the daily index). -/
def ndDeltaLow (ctx : DetectorCtx) (thetaMin : ℚ) (d : Int) : Bool :=
  match dailyLookup ctx (d + 1) with
  | some ndRow =>
      decide (ndRow.NF_d - (get_rolling_baseline ctx (d + 1) (·.NF_d)).1 ≤ thetaMin)
  | none => false

/-- The episodic-fill suppression test: BURSTBF fired today and the
next day's NF delta does not exceed `theta_min`. -/
def suppressCond (ctx : DetectorCtx) (thetaMin : ℚ) (sc : SigComp) (d : Int) : Prop :=
  sc.sub_scores.BURSTBF > 0 ∧ ndDeltaLow ctx thetaMin d = true

instance (ctx : DetectorCtx) (thetaMin : ℚ) (sc : SigComp) (d : Int) :
    Decidable (suppressCond ctx thetaMin sc d) := by
  unfold suppressCond; infer_instance

/-- The daily trigger condition: `leak_score ≥ 30` or
(`sev_rank(severity) > 1` and `deltaNF > theta_min`). -/
def triggerCond (thetaMin : ℚ) (sc : SigComp) (severity : String) : Prop :=
  sc.leak_score ≥ 30 ∨ (sevRank severity > 1 ∧ sc.deltaNF > thetaMin)

instance (thetaMin : ℚ) (sc : SigComp) (severity : String) :
    Decidable (triggerCond thetaMin sc severity) := by
  unfold triggerCond; infer_instance

/-- Store-or-overwrite of an incident's per-date snapshot archive
(python dict assignment `active["signal_components_by_date"][d_key] = …`). -/
def assocSet (l : List (Int × SigEntry)) (d : Int) (e : SigEntry) :
    List (Int × SigEntry) :=
  if l.any (fun p => p.1 = d) then
    l.map (fun p => if p.1 = d then (d, e) else p)
  else l ++ [(d, e)]

/-- The "Update attributes" block plus persistence-gate recomputation
and escalation applied to the active incident on a triggering day. -/
def applyUpdates (cfg : Cfg) (d : Int) (sc : SigComp) (severity : String)
    (conf : ℚ) (inc : Incident) : Incident :=
  let inc :=
    { inc with
      max_deltaNF := pyMax inc.max_deltaNF sc.deltaNF,
      severity_max :=
        if sevRank severity > sevRank inc.severity_max then severity else inc.severity_max,
      reason_codes := inc.reason_codes ∪ firedSet sc.sub_scores,
      volume_lost_kL := inc.volume_lost_kL + sc.deltaNF * 24 / 1000,
      sigComps := assocSet inc.sigComps d
        { sub_scores := sc.sub_scores, deltaNF := sc.deltaNF,
          NF_MAD := sc.NF_MAD, confidence := conf },
      confidence := conf }
  let needed := get_persistence_needed inc.max_deltaNF
    (inc.reason_codes.card : Int) inc.confidence cfg.persistence_gates
  let inc := { inc with alert_date := some (inc.start_day + (needed - 1)) }
  if inc.days_persisted ≥ needed then
    let inc :=
      if sevRank inc.severity_max ≤ 3 then { inc with status := "INVESTIGATE" } else inc
    if sevRank inc.severity_max ≥ 4 ∨
        (sevRank inc.severity_max ≥ 2 ∧ inc.confidence ≥ 70) then
      { inc with status := "CALL" }
    else inc
  else inc

/-- A blank incident as created inside the triggered-with-active branch
("start fresh"). -/
def freshBlank (site : String) (d : Int) : Incident :=
  { site_id := site, status := "WATCH", start_day := d, last_day := d,
    max_deltaNF := 0, severity_max := "S1", days_persisted := 1,
    reason_codes := ∅, volume_lost_kL := 0, confidence := 0,
    sigComps := [], alert_date := none, close_reason := none }

/-- The "Start first incident" record, seeded with today's values
(the no-active creation site of the state machine; no escalation
check runs on this path). -/
def seedIncident (ctx : DetectorCtx) (d : Int) (sc : SigComp)
    (severity : String) (conf : ℚ) : Incident :=
  let fired := firedList sc.sub_scores
  let needed := get_persistence_needed sc.deltaNF (fired.length : Int) conf
    ctx.cfg.persistence_gates
  { site_id := ctx.site_id, status := "WATCH", start_day := d, last_day := d,
    max_deltaNF := sc.deltaNF, severity_max := severity,
    days_persisted := 1, reason_codes := firedSet sc.sub_scores,
    volume_lost_kL := sc.deltaNF * 24 / 1000, confidence := conf,
    sigComps := [(d, { sub_scores := sc.sub_scores, deltaNF := sc.deltaNF,
                       NF_MAD := sc.NF_MAD, confidence := conf })],
    alert_date := some (d + (needed - 1)), close_reason := none }

/-- The triggered-day branch: extension / bridging / merging / creation
followed by the update-and-escalate block (for the active path) or the
seeded creation (for the no-active path). Operates on
`(incidents, active, lastCommitted)`. -/
def triggerBranch (ctx : DetectorCtx) (d : Int) (sc : SigComp)
    (severity : String) (conf : ℚ) (incs : List Incident)
    (act lc : Option Nat) : List Incident × Option Nat × Option Nat :=
  let cfg := ctx.cfg
  match act with
  | some i =>
      match incs.get? i with
      | none => (incs, act, lc) -- unreachable: active always indexes a live incident
      | some inc =>
          let gap := d - inc.last_day
          if gap = 1 then
            (listModify incs i (fun a =>
              applyUpdates cfg d sc severity conf
                { a with last_day := d, days_persisted := a.days_persisted + 1 }),
             act, lc)
          else if 1 < gap ∧ gap ≤ cfg.merge_gap_days then
            (listModify incs i (fun a =>
              applyUpdates cfg d sc severity conf
                { a with days_persisted := a.days_persisted + 1 + pyMaxI 0 (gap - 1),
                         last_day := d }),
             act, lc)
          else
            match lc with
            | some j =>
                match incs.get? j with
                | some lcInc =>
                    if 0 < d - lcInc.last_day ∧ d - lcInc.last_day ≤ cfg.merge_gap_days then
                      let gap' := d - lcInc.last_day - 1
                      (listModify incs j (fun a =>
                        applyUpdates cfg d sc severity conf
                          { a with days_persisted := a.days_persisted + 1 + pyMaxI 0 gap',
                                   last_day := d }),
                       some j, lc)
                    else
                      (incs ++ [applyUpdates cfg d sc severity conf (freshBlank ctx.site_id d)],
                       some incs.length, some incs.length)
                | none =>
                    (incs ++ [applyUpdates cfg d sc severity conf (freshBlank ctx.site_id d)],
                     some incs.length, some incs.length)
            | none =>
                (incs ++ [applyUpdates cfg d sc severity conf (freshBlank ctx.site_id d)],
                 some incs.length, some incs.length)
  | none =>
      -- "Start first incident": seeded directly, no escalation check.
      (incs ++ [seedIncident ctx d sc severity conf],
       some incs.length, some incs.length)

/-- Closure of a still-unconfirmed active incident (shared by the
triggering-day closure, guarded by the night-flow test, and the
non-triggering-day closure). -/
def closeActive (incs : List Incident) (act : Option Nat) :
    List Incident × Option Nat :=
  match act with
  | none => (incs, act)
  | some i =>
      match incs.get? i with
      | none => (incs, act)
      | some inc =>
          if inc.status ≠ "INVESTIGATE" ∧ inc.status ≠ "CALL" then
            (listModify incs i
              (fun a => { a with close_reason := some "self-resolved/benign" }),
             none)
          else (incs, act)

/-- Closure on a triggering day: a still-unconfirmed active incident
closes when `deltaNF ≤ max(3*NF_MAD, theta_min)`. -/
def closureCheck (thetaMin : ℚ) (sc : SigComp) (incs : List Incident)
    (act : Option Nat) : List Incident × Option Nat :=
  match act with
  | none => (incs, act)
  | some i =>
      match incs.get? i with
      | none => (incs, act)
      | some inc =>
          if inc.status ≠ "INVESTIGATE" ∧ inc.status ≠ "CALL" then
            if sc.deltaNF ≤ pyMax (3 * sc.NF_MAD) thetaMin then
              (listModify incs i
                (fun a => { a with close_reason := some "self-resolved/benign" }),
               none)
            else (incs, act)
          else (incs, act)

def nextActionFor (status : String) : String :=
  if status = "WATCH" then "Monitor next night"
  else if status = "INVESTIGATE" then "Caretaker walk-through"
  else if status = "CALL" then "Escalate to plumber"
  else "None"

/-- The daily UI record emitted at the end of a processed day. -/
def emitRecord (incs : List Incident) (act : Option Nat) (sc : SigComp)
    (conf : ℚ) : DailyOut :=
  let activeInc := act.bind (fun i => incs.get? i)
  let status := (activeInc.map (·.status)).getD "OK"
  { status := status,
    severity := activeInc.map (·.severity_max),
    confidence := some conf,
    deltaNF := some sc.deltaNF,
    days_persisted := some ((activeInc.map (·.days_persisted)).getD 0),
    est_volume_lost_kL := some ((activeInc.map (·.volume_lost_kL)).getD 0),
    reason_codes := some (String.intercalate ", "
      (Finset.sort (· ≤ ·) ((activeInc.map (·.reason_codes)).getD ∅))),
    next_action := nextActionFor status,
    suppressed := none }

/-- The daily record of a warm-up day (`{"status": "OK",
"next_action": "None"}`). -/
def warmupRecord : DailyOut :=
  { status := "OK", severity := none, confidence := none, deltaNF := none,
    days_persisted := none, est_volume_lost_kL := none, reason_codes := none,
    next_action := "None", suppressed := none }

/-- The daily record of a suppressed (episodic-fill) day. -/
def suppressedRecord : DailyOut :=
  { status := "OK", severity := none, confidence := none, deltaNF := none,
    days_persisted := none, est_volume_lost_kL := none, reason_codes := none,
    next_action := "None", suppressed := some "EPISODIC FILL" }

/-- One iteration of the day loop of `state_machine`. -/
def stepDay (ctx : DetectorCtx) (thetaMin : ℚ) (day0 : Int) (st : MState) (d : Int) :
    MState :=
  if d - day0 < ctx.cfg.baseline_window_days then
    { st with outputs := st.outputs ++ [(d, warmupRecord)] }
  else
    let r := resolveSig ctx st.sigMap d
    let sc := r.1
    let severity := get_severity sc.deltaNF ctx.cfg.severity_bands_lph
    if suppressCond ctx thetaMin sc d then
      { st with sigMap := r.2,
                suppressions := st.suppressions ++ [(d, "EPISODIC FILL")],
                outputs := st.outputs ++ [(d, suppressedRecord)] }
    else
      let persistence_days :=
        match st.active.bind (fun i => st.incidents.get? i) with
        | none => 1
        | some inc => inc.days_persisted + 1
      let rc := resolveConf st.confMap sc.sub_scores persistence_days sc.deltaNF sc.NF_MAD d
      let conf := rc.1
      if triggerCond thetaMin sc severity then
        let t := triggerBranch ctx d sc severity conf st.incidents st.active st.lastCommitted
        let c := closureCheck thetaMin sc t.1 t.2.1
        { st with sigMap := r.2, confMap := rc.2,
                  incidents := c.1, active := c.2, lastCommitted := t.2.2,
                  outputs := st.outputs ++ [(d, emitRecord c.1 c.2 sc conf)] }
      else
        let c := closeActive st.incidents st.active
        { st with sigMap := r.2, confMap := rc.2,
                  incidents := c.1, active := c.2,
                  outputs := st.outputs ++ [(d, emitRecord c.1 c.2 sc conf)] }

/-- The initial loop state: frozen caches restored from the context,
everything else empty. -/
def initState (ctx : DetectorCtx) : MState :=
  { sigMap := ctx.sigMap0, confMap := ctx.confMap0, incidents := [],
    active := none, lastCommitted := none, suppressions := [], outputs := [] }

/-- Sorted processing days (`sorted(self.daily.index)`). -/
def daysOf (ctx : DetectorCtx) : List Int :=
  sortAscI (ctx.daily.map (·.date))

/-- Folding the day loop from a given state over a given day list. -/
def runDays (ctx : DetectorCtx) (thetaMin : ℚ) (day0 : Int) (st : MState)
    (days : List Int) : MState :=
  days.foldl (stepDay ctx thetaMin day0) st

/-- `state_machine()`: run the day loop over the sorted daily index,
with `theta_min` from `get_adaptive_threshold`. Returns the final
detector state (incidents, frozen caches, daily outputs). -/
def state_machine (ctx : DetectorCtx) : MState :=
  let days := daysOf ctx
  match days with
  | [] => initState ctx
  | day0 :: _ => runDays ctx (get_adaptive_threshold ctx) day0 (initState ctx) days

/-! ## false_alarm_patterns.py — fingerprints, similarity, suppression -/

/-- Python `round(x, nd)` (banker's rounding, half to even). -/
def roundHalfEven (x : ℚ) : Int :=
  let f := Rat.floor x
  let r := x - f
  if r < 1/2 then f
  else if r > 1/2 then f + 1
  else if f % 2 = 0 then f else f + 1

def pyRound (x : ℚ) (nd : ℕ) : ℚ :=
  (roundHalfEven (x * 10 ^ nd) : ℚ) / 10 ^ nd

/-- Matching thresholds and seasonal factors (module constants). -/
def SIGNAL_MATCH_THRESHOLD : ℚ := 7/10
def DEFAULT_MNF_TOLERANCE : ℚ := 3/10
def MIN_MNF_TOLERANCE : ℚ := 15/100
def MAX_MNF_TOLERANCE : ℚ := 1/2
def SEASON_MATCH_BOOST : ℚ := 12/10
def SEASON_MISMATCH_PENALTY : ℚ := 8/10
def SEASON_WILDCARD_BOOST : ℚ := 115/100

/-- A calendar date as the pattern engine consumes it: month, day of
month, and pandas day-of-week (0 = Monday). -/
structure CalDate where
  month : Int
  day : Int
  dow : Int
  deriving Repr, DecidableEq

/-- A signal fingerprint dict (`create_signal_fingerprint` output shape;
`none` models an absent/None entry). The legacy `mnf` key probed by the
MNF similarity is carried alongside `mnf_value_Lph`. -/
structure Fingerprint where
  signals_active : List String
  signal_scores : List (String × ℚ)
  mnf_range : Option (ℚ × ℚ)
  mnf_value_Lph : Option ℚ
  mnf : Option ℚ
  avg_flow_rate_Lph : Option ℚ
  peak_flow_rate_Lph : Option ℚ
  volume_range : Option (ℚ × ℚ)
  volume_kL : Option ℚ
  duration_range : Option (ℚ × ℚ)
  duration_hours : Option ℚ
  deriving Repr, DecidableEq

/-- A time fingerprint dict. -/
structure TimeFingerprint where
  days_of_week : List Int
  time_window_start : Option ℚ
  time_window_end : Option ℚ
  deriving Repr, DecidableEq

/-- A recurrence rule (only its `days_of_week` is consumed by time
similarity). -/
structure RecurrenceRule where
  days_of_week : List Int
  deriving Repr, DecidableEq

/-- One row of the pattern store. `none` fingerprint fields model
empty/missing dicts (falsy in the source). -/
structure Pattern where
  pattern_id : String
  site_id : String
  category : String
  description : String
  signal_fingerprint : Option Fingerprint
  time_fingerprint : Option TimeFingerprint
  recurrence_rule : Option RecurrenceRule
  auto_suppress : Bool
  confidence : ℚ
  times_matched : Int
  times_confirmed_false : Int
  times_was_real_leak : Int
  is_active : Bool
  season_tags : List String
  mnf_tolerance_factor : Option ℚ
  last_matched_at : Option String
  deriving Repr, DecidableEq

/-- The incident dict fields probed by fingerprint extraction and
matching (each candidate key is an optional field). -/
structure IncidentDict where
  subscores_ui : List (String × ℚ)
  subscores : List (String × ℚ)
  mnf_at_confirm_Lph : Option ℚ
  avg_mnf_Lph : Option ℚ
  mnf_Lph : Option ℚ
  mnf : Option ℚ
  MNF : Option ℚ
  avg_flow_Lph : Option ℚ
  avg_flow_rate : Option ℚ
  mean_flow : Option ℚ
  flow_rate : Option ℚ
  peak_flow_Lph : Option ℚ
  max_flow : Option ℚ
  peak_flow : Option ℚ
  volume_kL : Option ℚ
  duration_hours : Option ℚ
  start_day : Option CalDate
  deriving Repr, DecidableEq

/-- First present-and-truthy (non-zero) value of a priority list of
probed fields, as in the `for field in [...]` probing loops. -/
def firstTruthy : List (Option ℚ) → Option ℚ
  | [] => none
  | none :: t => firstTruthy t
  | some v :: t => if v ≠ 0 then some v else firstTruthy t

/-- `create_signal_fingerprint(incident)`. -/
def create_signal_fingerprint (inc : IncidentDict) : Fingerprint :=
  let subs := if inc.subscores_ui ≠ [] then inc.subscores_ui else inc.subscores
  let activeSubs := subs.filter (fun p => p.2 ≠ 0 ∧ p.2 > 1/10)
  let mnfv := firstTruthy
    [inc.mnf_at_confirm_Lph, inc.avg_mnf_Lph, inc.mnf_Lph, inc.mnf, inc.MNF]
  let avgFlow := firstTruthy
    [inc.avg_flow_Lph, inc.avg_flow_rate, inc.mean_flow, inc.flow_rate]
  let peakFlow := firstTruthy [inc.peak_flow_Lph, inc.max_flow, inc.peak_flow]
  let vol := match inc.volume_kL with
    | some v => if v ≠ 0 then some v else none
    | none => none
  let dur := match inc.duration_hours with
    | some v => if v ≠ 0 then some v else none
    | none => none
  { signals_active := activeSubs.map (·.1)
    signal_scores := activeSubs.map (fun p => (p.1, pyRound p.2 2))
    mnf_value_Lph := mnfv.map (fun m => pyRound m 2)
    mnf_range := mnfv.map (fun m => (pyRound (m * 7/10) 2, pyRound (m * 13/10) 2))
    mnf := none
    avg_flow_rate_Lph := avgFlow.map (fun v => pyRound v 2)
    peak_flow_rate_Lph := peakFlow.map (fun v => pyRound v 2)
    volume_kL := vol.map (fun v => pyRound v 2)
    volume_range := vol.map (fun v => (pyRound (v * 1/2) 2, pyRound (v * 3/2) 2))
    duration_hours := dur.map (fun v => pyRound v 2)
    duration_range := dur.map (fun v => (pyMax 0 (pyRound (v - 6) 2), pyRound (v + 6) 2)) }

/-- The MNF value a fingerprint exposes to the adaptive MNF similarity
(probing `mnf_value_Lph` then `mnf`, truthy values only). -/
def fpMnfVal (fp : Fingerprint) : Option ℚ :=
  firstTruthy [fp.mnf_value_Lph, fp.mnf]

/-- `calculate_mnf_similarity_adaptive(fp1, fp2, tolerance_factor)`. -/
def calculate_mnf_similarity_adaptive (fp1 fp2 : Fingerprint)
    (tolerance_factor : Option ℚ) : ℚ :=
  match fpMnfVal fp1, fpMnfVal fp2 with
  | some m1, some m2 =>
      let tol := tolerance_factor.getD DEFAULT_MNF_TOLERANCE
      let tol := pyMax MIN_MNF_TOLERANCE (pyMin MAX_MNF_TOLERANCE tol)
      let lower := m1 * (1 - tol)
      let upper := m1 * (1 + tol)
      if lower ≤ m2 ∧ m2 ≤ upper then
        let dist := pyAbs (m2 - m1)
        let maxDist := m1 * tol
        if maxDist > 0 then 1 - (3/10 * dist / maxDist) else 1
      else if m2 < lower then
        let overshoot := lower - m2
        let base := m1 * tol
        let penalty := if base > 0 then pyMin 1 (overshoot / base) else 1
        pyMax 0 (1/2 - 1/2 * penalty)
      else
        let overshoot := m2 - upper
        let base := m1 * tol
        let penalty := if base > 0 then pyMin 1 (overshoot / base) else 1
        pyMax 0 (1/2 - 1/2 * penalty)
  | _, _ => 1/2

/-- Dict-style lookup in a `signal_scores` association list. -/
def scoreOf (l : List (String × ℚ)) (k : String) : ℚ :=
  (l.lookup k).getD 0

/-- The active-signal Jaccard block of `calculate_signal_similarity`:
`(contribution to score, contribution to weights_used)`. -/
def featSignalSet (fp1 fp2 : Fingerprint) : ℚ × ℚ :=
  let s1 := fp1.signals_active.toFinset
  let s2 := fp2.signals_active.toFinset
  if s1 ≠ ∅ ∨ s2 ≠ ∅ then
    if (s1 ∪ s2).card > 0 then
      ((((s1 ∩ s2).card : ℚ) / ((s1 ∪ s2).card : ℚ)) * (3/10), (3/10 : ℚ))
    else (0, 0)
  else (0, 0)

/-- The signal-intensity block of `calculate_signal_similarity`. -/
def featIntensity (fp1 fp2 : Fingerprint) : ℚ × ℚ :=
  let keys1 := (fp1.signal_scores.map (·.1)).toFinset
  let keys2 := (fp2.signal_scores.map (·.1)).toFinset
  let common := keys1 ∩ keys2
  if fp1.signal_scores ≠ [] ∧ fp2.signal_scores ≠ [] then
    if common ≠ ∅ then
      let avg_diff := (common.sum fun s =>
        pyAbs (scoreOf fp1.signal_scores s - scoreOf fp2.signal_scores s)) /
        (common.card : ℚ)
      ((pyMax 0 (1 - avg_diff)) * (2/10), (2/10 : ℚ))
    else (0, 0)
  else (0, 0)

/-- The MNF block of `calculate_signal_similarity`: always applied,
with the adaptive similarity (which is a neutral 1/2 when MNF is absent
on either side). -/
def featMnf (fp1 fp2 : Fingerprint) (mnf_tolerance : Option ℚ) : ℚ × ℚ :=
  (calculate_mnf_similarity_adaptive fp1 fp2 mnf_tolerance * (2/10), (2/10 : ℚ))

/-- The volume-range block of `calculate_signal_similarity`. -/
def featVolume (fp1 fp2 : Fingerprint) : ℚ × ℚ :=
  match fp1.volume_range, fp2.volume_range with
  | some v1, some v2 =>
      let overlap := pyMax 0 (pyMin v1.2 v2.2 - pyMax v1.1 v2.1)
      let total := pyMax v1.2 v2.2 - pyMin v1.1 v2.1
      if total > 0 then ((overlap / total) * (15/100), (15/100 : ℚ)) else (0, 0)
  | _, _ => (0, 0)

/-- The duration-range block of `calculate_signal_similarity`. -/
def featDuration (fp1 fp2 : Fingerprint) : ℚ × ℚ :=
  match fp1.duration_range, fp2.duration_range with
  | some v1, some v2 =>
      let overlap := pyMax 0 (pyMin v1.2 v2.2 - pyMax v1.1 v2.1)
      let total := pyMax v1.2 v2.2 - pyMin v1.1 v2.1
      if total > 0 then ((overlap / total) * (15/100), (15/100 : ℚ)) else (0, 0)
  | _, _ => (0, 0)

/-- `calculate_signal_similarity(fp1, fp2, mnf_tolerance)`; `none`
arguments model empty/missing fingerprint dicts (the `not fp1 or not
fp2` guard). -/
def calculate_signal_similarity (ofp1 ofp2 : Option Fingerprint)
    (mnf_tolerance : Option ℚ) : ℚ :=
  match ofp1, ofp2 with
  | some fp1, some fp2 =>
      let p1 := featSignalSet fp1 fp2
      let p2 := featIntensity fp1 fp2
      let p3 := featMnf fp1 fp2 mnf_tolerance
      let p4 := featVolume fp1 fp2
      let p5 := featDuration fp1 fp2
      let score := p1.1 + p2.1 + p3.1 + p4.1 + p5.1
      let weights_used := p1.2 + p2.2 + p3.2 + p4.2 + p5.2
      if weights_used > 0 then score / weights_used else 0
  | _, _ => 0

/-- Truthiness of an optional numeric time bound. -/
def timeTruthy : Option ℚ → Bool
  | none => false
  | some v => v ≠ 0

/-- `calculate_time_similarity(incident, pattern)`. -/
def calculate_time_similarity (inc : IncidentDict) (p : Pattern) : ℚ :=
  match p.time_fingerprint, p.recurrence_rule with
  | none, none => 1/2
  | tfp, rec =>
      let tfDays := ((tfp.map (·.days_of_week)).getD [])
      let recDays := ((rec.map (·.days_of_week)).getD [])
      let pattern_days := if tfDays ≠ [] then tfDays else recDays
      let p1 :=
        match inc.start_day with
        | some c =>
            if pattern_days ≠ [] then
              ((if c.dow ∈ pattern_days then (1/2 : ℚ) else 0), (1/2 : ℚ))
            else (0, 0)
        | none => (0, 0)
      let tStart := (tfp.map (·.time_window_start)).getD none
      let tEnd := (tfp.map (·.time_window_end)).getD none
      let p2 :=
        if timeTruthy tStart ∧ timeTruthy tEnd then ((1/4 : ℚ), (1/2 : ℚ)) else (0, 0)
      let score := p1.1 + p2.1
      let weights_used := p1.2 + p2.2
      if weights_used > 0 then score / weights_used else 1/2

/-- The NSW school calendar entries, in dict insertion order
(`(name, (start_month, start_day), (end_month, end_day))`). -/
def nswCalendar : List (String × (Int × Int) × (Int × Int)) :=
  [("term_1", ((2, 1), (4, 12))),
   ("term_2", ((4, 28), (7, 5))),
   ("term_3", ((7, 21), (9, 27))),
   ("term_4", ((10, 14), (12, 18))),
   ("summer", ((12, 19), (1, 31)))]

/-- Membership of a (month, day) in one calendar entry, including the
year-wrapping branch. -/
def seasonContains (month day : Int) (e : String × (Int × Int) × (Int × Int)) : Bool :=
  let sm := e.2.1.1
  let sd := e.2.1.2
  let em := e.2.2.1
  let ed := e.2.2.2
  if sm > em then
    (month = sm ∧ day ≥ sd) ∨ (month = em ∧ day ≤ ed) ∨ month > sm ∨ month < em
  else
    (month > sm ∨ (month = sm ∧ day ≥ sd)) ∧ (month < em ∨ (month = em ∧ day ≤ ed))

/-- `detect_school_season(date)`. -/
def detect_school_season (c : CalDate) : String :=
  match nswCalendar.find? (seasonContains c.month c.day) with
  | some e => e.1
  | none =>
      if c.month = 4 ∧ 13 ≤ c.day ∧ c.day ≤ 27 then "autumn_break"
      else if c.month = 7 ∧ 6 ≤ c.day ∧ c.day ≤ 20 then "winter_break"
      else if (c.month = 9 ∧ c.day ≥ 28) ∨ (c.month = 10 ∧ c.day ≤ 13) then "spring_break"
      else "term_1"

def is_school_holiday (c : CalDate) : Bool :=
  detect_school_season c ∈ ["summer", "winter_break", "autumn_break", "spring_break"]

def is_school_term (c : CalDate) : Bool :=
  detect_school_season c ∈ ["term_1", "term_2", "term_3", "term_4"]

/-- `calculate_seasonal_similarity(incident_date, pattern)`. -/
def calculate_seasonal_similarity (c : CalDate) (p : Pattern) : ℚ :=
  if p.season_tags = [] then 1
  else
    let s := detect_school_season c
    if s ∈ p.season_tags then SEASON_MATCH_BOOST
    else if "any_term" ∈ p.season_tags ∧ is_school_term c then SEASON_WILDCARD_BOOST
    else if "any_holiday" ∈ p.season_tags ∧ is_school_holiday c then SEASON_WILDCARD_BOOST
    else SEASON_MISMATCH_PENALTY

/-- One row of the list `match_incident_to_patterns` returns
(numeric entries rounded exactly as the source rounds them). -/
structure MatchRec where
  pattern_id : String
  site_id : String
  category : String
  description : String
  signal_similarity : ℚ
  time_similarity : ℚ
  seasonal_boost : ℚ
  combined_score : ℚ
  pattern_confidence : ℚ
  final_score : ℚ
  auto_suppress : Bool
  times_matched : Int
  is_strong_match : Bool
  season_tags : List String
  mnf_tolerance_used : ℚ
  deriving Repr, DecidableEq

/-- Stable insertion used to model python's stable
`sort(key=final_score, reverse=True)`. -/
def insertDescByFinal (m : MatchRec) : List MatchRec → List MatchRec
  | [] => [m]
  | x :: xs =>
      if x.final_score ≥ m.final_score then x :: insertDescByFinal m xs
      else m :: x :: xs

def sortDescByFinal (l : List MatchRec) : List MatchRec :=
  l.foldl (fun acc m => insertDescByFinal m acc) []

/-- The per-pattern match row of `match_incident_to_patterns`, when the
pre-seasonal combined score clears half the strong-match threshold. -/
def matchRowFor (incident_fp : Fingerprint) (inc : IncidentDict)
    (p : Pattern) : Option MatchRec :=
  let tol := p.mnf_tolerance_factor.getD DEFAULT_MNF_TOLERANCE
  let signal_sim := calculate_signal_similarity (some incident_fp)
    p.signal_fingerprint (some tol)
  let time_sim := calculate_time_similarity inc p
  let seasonal_boost :=
    match inc.start_day with
    | some c => calculate_seasonal_similarity c p
    | none => 1
  let combined := signal_sim * (7/10) + time_sim * (3/10)
  let final := pyMax 0 (pyMin 1 (combined * seasonal_boost))
  let strong := final ≥ SIGNAL_MATCH_THRESHOLD
  if combined ≥ SIGNAL_MATCH_THRESHOLD * (1/2) then
    some { pattern_id := p.pattern_id, site_id := p.site_id,
           category := p.category, description := p.description,
           signal_similarity := pyRound signal_sim 3,
           time_similarity := pyRound time_sim 3,
           seasonal_boost := pyRound seasonal_boost 2,
           combined_score := pyRound combined 3,
           pattern_confidence := pyRound p.confidence 3,
           final_score := pyRound final 3,
           auto_suppress := p.auto_suppress,
           times_matched := p.times_matched,
           is_strong_match := strong,
           season_tags := p.season_tags,
           mnf_tolerance_used := pyRound tol 2 }
  else none

/-- `match_incident_to_patterns(incident, site_id)` over an explicit
pattern store `df`. -/
def match_incident_to_patterns (inc : IncidentDict) (site_id : Option String)
    (df : List Pattern) : List MatchRec :=
  if df = [] then []
  else
    let df :=
      match site_id with
      | some s => df.filter (fun (p : Pattern) => p.site_id = s ∨ p.site_id = "ALL")
      | none => df
    let df := df.filter (·.is_active)
    if df = [] then []
    else
      let incident_fp := create_signal_fingerprint inc
      sortDescByFinal (df.filterMap (matchRowFor incident_fp inc))

/-- `update_pattern_match(pattern_id)`: bump `times_matched` and stamp
`last_matched_at` on the matching store rows (`datetime.now()` is
modelled as the explicit argument `now`). -/
def bumpPattern (now : String) (p : Pattern) : Pattern :=
  { p with times_matched := p.times_matched + 1, last_matched_at := some now }

def update_pattern_match (df : List Pattern) (pid : String) (now : String) :
    List Pattern :=
  if df.any (fun p => p.pattern_id = pid) then
    df.map (fun p => if p.pattern_id = pid then bumpPattern now p else p)
  else df

/-- `check_should_suppress(incident, site_id)`: scan the sorted matches
for the first strong match with `auto_suppress`; on a hit, update that
pattern's counters and return it. Returns the decision, the match acted
on, and the resulting pattern store. -/
def check_should_suppress (inc : IncidentDict) (site_id : String)
    (df : List Pattern) (now : String) : Bool × Option MatchRec × List Pattern :=
  let ms := match_incident_to_patterns inc (some site_id) df
  match ms.find? (fun m => m.is_strong_match ∧ m.auto_suppress) with
  | some m => (true, some m, update_pattern_match df m.pattern_id now)
  | none => (false, none, df)

/-! ## Spec-side reference definitions

The following definitions are NOT transcriptions of the source: each
follows the words of one spec claim, to be compared with the source
transcription above. -/

/-- The AFTERHRS sub-score as claim C4 words it: score 1 exactly when
today's delta exceeds today's threshold and the previous day's delta
exceeds the previous day's *own* threshold (computed from the previous
day's own baseline window); otherwise the linear ramp on today's
values, clamped to `[0,1]`. -/
def afterhrs_score_specVersion (ctx : DetectorCtx) (d : Int) : ℚ :=
  let A_d := ((dailyLookup ctx d).map (·.A_d)).getD 0
  let aB := get_rolling_baseline ctx d (·.A_d)
  let deltaA := A_d - aB.1
  let threshA := pyMax (3 * aB.2) ctx.cfg.sustained_after_hours_delta_kl
  let prevA := ((dailyLookup ctx (d - 1)).map (·.A_d)).getD 0
  let pB := get_rolling_baseline ctx (d - 1) (·.A_d)
  let prev_deltaA := prevA - pB.1
  let threshA_prev := pyMax (3 * pB.2) ctx.cfg.sustained_after_hours_delta_kl
  if deltaA > threshA ∧ prev_deltaA > threshA_prev then 1
  else clamp01 (deltaA / (2 * threshA))

/-- The Jaccard similarity of the two active-signal sets. -/
def jaccardSim (fp1 fp2 : Fingerprint) : ℚ :=
  let s1 := fp1.signals_active.toFinset
  let s2 := fp2.signals_active.toFinset
  ((s1 ∩ s2).card : ℚ) / ((s1 ∪ s2).card : ℚ)

/-- The signal-intensity similarity over the common scored signals. -/
def intensitySim (fp1 fp2 : Fingerprint) : ℚ :=
  let common := (fp1.signal_scores.map (·.1)).toFinset ∩
    (fp2.signal_scores.map (·.1)).toFinset
  let avg_diff := (common.sum fun s =>
    pyAbs (scoreOf fp1.signal_scores s - scoreOf fp2.signal_scores s)) / (common.card : ℚ)
  max 0 (1 - avg_diff)

/-- The interval-overlap ratio of two ranges. -/
def rangeOverlapSim (v1 v2 : ℚ × ℚ) : ℚ :=
  (pyMax 0 (pyMin v1.2 v2.2 - pyMax v1.1 v2.1)) / (pyMax v1.2 v2.2 - pyMin v1.1 v2.1)

/-- Signal-fingerprint similarity as claim C6 words it: a weighted
blend of the five feature similarities divided by the sum of the
weights of the features applicable, where a feature absent in either
fingerprint contributes to neither numerator nor denominator. -/
def signal_similarity_specVersion (fp1 fp2 : Fingerprint)
    (tol : Option ℚ) : ℚ :=
  let ts : List (ℚ × ℚ) :=
    (if fp1.signals_active ≠ [] ∧ fp2.signals_active ≠ [] then
      [((3/10 : ℚ), jaccardSim fp1 fp2)] else []) ++
    (if fp1.signal_scores ≠ [] ∧ fp2.signal_scores ≠ [] then
      [((2/10 : ℚ), intensitySim fp1 fp2)] else []) ++
    (if (fpMnfVal fp1).isSome ∧ (fpMnfVal fp2).isSome then
      [((2/10 : ℚ), calculate_mnf_similarity_adaptive fp1 fp2 tol)] else []) ++
    (match fp1.volume_range, fp2.volume_range with
     | some v1, some v2 => [((15/100 : ℚ), rangeOverlapSim v1 v2)]
     | _, _ => []) ++
    (match fp1.duration_range, fp2.duration_range with
     | some v1, some v2 => [((15/100 : ℚ), rangeOverlapSim v1 v2)]
     | _, _ => [])
  let den := (ts.map (·.1)).sum
  if den > 0 then (ts.map (fun t => t.1 * t.2)).sum / den else 0

/-- Signal-fingerprint similarity as the code actually normalizes it
(the amended form of claim C6): the MNF feature is always applicable
(neutral similarity 1/2 when MNF is absent on either side, via
`calculate_mnf_similarity_adaptive`); the signal-set feature is
applicable whenever at least one side has active signals (so one-sided
absence is penalized, not skipped); intensity needs both score dicts
nonempty with a common signal; volume and duration need both ranges
present and a positive union width. -/
def signal_similarity_blend (fp1 fp2 : Fingerprint) (tol : Option ℚ) : ℚ :=
  let ts : List (ℚ × ℚ) :=
    [featSignalSet fp1 fp2, featIntensity fp1 fp2, featMnf fp1 fp2 tol,
     featVolume fp1 fp2, featDuration fp1 fp2]
  (ts.map (·.1)).sum / (ts.map (·.2)).sum

/-- The best (highest final-score) strong match of a sorted match list,
as claim C5 words it. -/
def bestStrongMatch (ms : List MatchRec) : Option MatchRec :=
  (ms.filter (·.is_strong_match)).head?

/-- The trigger condition of the state machine evaluated directly on a
context's fresh signals (used to state the C7 scenario). -/
def trigAt (ctx : DetectorCtx) (d : Int) : Prop :=
  triggerCond (get_adaptive_threshold ctx) (signals_and_score ctx d)
    (get_severity (signals_and_score ctx d).deltaNF ctx.cfg.severity_bands_lph)

instance (ctx : DetectorCtx) (d : Int) : Decidable (trigAt ctx d) := by
  unfold trigAt; infer_instance

/-- Non-negativity of all cached deltaNF values in a restored signal
cache (holds for the empty cache of a fresh run and is preserved by
every run; the state machine itself only ever stores
`max 0 (NF_d - NF_base)`). -/
def sigMapNonneg (m : List (Int × SigComp)) : Prop :=
  ∀ p ∈ m, 0 ≤ p.2.deltaNF

instance (m : List (Int × SigComp)) : Decidable (sigMapNonneg m) := by
  unfold sigMapNonneg; infer_instance

/-! ## Concrete example inputs used by witnesses and counterexamples -/

/-- A concrete configuration: zero-day warm-up window, absolute floor
1 L/h, all persistence gates at 3 days, two severity bands. -/
def exCfg : Cfg :=
  { night_start := 22, night_end := 29, after_hours_start := 18, after_hours_end := 6,
    baseline_window_days := 0, abs_floor_lph := 1,
    sustained_after_hours_delta_kl := 1, spike_multiplier := 3,
    score_weights := { MNF := 4/10, RESIDUAL := 1/10, CUSUM := 2/10,
                       AFTERHRS := 2/10, BURSTBF := 1/10 },
    persistence_gates :=
      { lt100 := { fast_min := 3, default_max := 3 },
        r100to200 := { fast_min := 3, default_max := 3 },
        r200to1000 := { fast_min := 3, default_max := 3 },
        ge1000 := { fast_min := 3, default_max := 3 } },
    severity_bands_lph := [("S1", 0, 10), ("S2", 10, 10000)],
    cusum_k := 1000, cusum_h := 1000, merge_gap_days := 2 }

/-- C2 run: night flow 100 L/h on days 1–10, dropping to 5 on day 11;
after-hours volume 10 kL every day; no hourly rows (all hourly-derived
sub-scores are 0). -/
def ctxC2 : DetectorCtx :=
  { site_id := "s", df := [],
    daily := [⟨1, 100, 10⟩, ⟨2, 100, 10⟩, ⟨3, 100, 10⟩, ⟨4, 100, 10⟩, ⟨5, 100, 10⟩,
              ⟨6, 100, 10⟩, ⟨7, 100, 10⟩, ⟨8, 100, 10⟩, ⟨9, 100, 10⟩, ⟨10, 100, 10⟩,
              ⟨11, 5, 10⟩],
    cfg := exCfg, excluded_dates := [], sigMap0 := [], confMap0 := [] }

/-- C7 counterexample run: processed days 1–4, trigger fails on day 3. -/
def ctxC7 : DetectorCtx :=
  { site_id := "s", df := [],
    daily := [⟨1, 100, 0⟩, ⟨2, 100, 0⟩, ⟨3, 0, 0⟩, ⟨4, 100, 0⟩],
    cfg := exCfg, excluded_dates := [], sigMap0 := [], confMap0 := [] }

/-- C7 amended run: day 3 absent from the data, so day 4 bridges the
gap. -/
def ctxC7m : DetectorCtx :=
  { site_id := "s", df := [],
    daily := [⟨1, 100, 0⟩, ⟨2, 100, 0⟩, ⟨4, 100, 0⟩],
    cfg := exCfg, excluded_dates := [], sigMap0 := [], confMap0 := [] }

/-- C1 run 1: a single processed day. -/
def ctxC1a : DetectorCtx :=
  { site_id := "s", df := [], daily := [⟨0, 100, 0⟩],
    cfg := exCfg, excluded_dates := [], sigMap0 := [], confMap0 := [] }

/-- C1 run 2: history extended by one future day, frozen caches of run
1 restored before execution. -/
def ctxC1b : DetectorCtx :=
  { site_id := "s", df := [], daily := [⟨0, 100, 0⟩, ⟨1, 100, 0⟩],
    cfg := exCfg, excluded_dates := [],
    sigMap0 := (state_machine ctxC1a).sigMap,
    confMap0 := (state_machine ctxC1a).confMap }

/-- C9 context: three warm-up days with varying night flow so that
`3 * NF_MAD` on day 4 exceeds the day's deltaNF while the trigger still
fires. -/
def ctxC9 : DetectorCtx :=
  { site_id := "s", df := [],
    daily := [⟨1, 0, 0⟩, ⟨2, 60, 0⟩, ⟨3, 120, 0⟩, ⟨4, 160, 0⟩],
    cfg := { exCfg with baseline_window_days := 3 },
    excluded_dates := [], sigMap0 := [], confMap0 := [] }

/-- C3 context: a single date whose 14-day trailing baseline window is
empty. -/
def ctxC3 : DetectorCtx :=
  { site_id := "s", df := [], daily := [⟨0, 100, 0⟩],
    cfg := { exCfg with baseline_window_days := 14, abs_floor_lph := 20 },
    excluded_dates := [], sigMap0 := [], confMap0 := [] }

/-- C4 context: after-hours volumes 0, 0, 100, 98, 103 over days 0–4
with a 2-day baseline window, so the previous day's own threshold (150)
differs from today's (3). -/
def ctxC4 : DetectorCtx :=
  { site_id := "s", df := [],
    daily := [⟨0, 0, 0⟩, ⟨1, 0, 0⟩, ⟨2, 0, 100⟩, ⟨3, 0, 98⟩, ⟨4, 0, 103⟩],
    cfg := { exCfg with baseline_window_days := 2 },
    excluded_dates := [], sigMap0 := [], confMap0 := [] }

/-- C2 amended witness state: a standing CALL incident of severity S4. -/
def incCall4 : Incident :=
  { site_id := "s", status := "CALL", start_day := 1, last_day := 10,
    max_deltaNF := 2000, severity_max := "S4", days_persisted := 10,
    reason_codes := {"MNF"}, volume_lost_kL := 480, confidence := 80,
    sigComps := [], alert_date := some 3, close_reason := none }

def stCall4 : MState :=
  { sigMap := [], confMap := [], incidents := [incCall4],
    active := some 0, lastCommitted := some 0, suppressions := [], outputs := [] }

/-- C8 witness state: one WATCH incident with concrete accumulators. -/
def incW8 : Incident :=
  { site_id := "s", status := "WATCH", start_day := 1, last_day := 1,
    max_deltaNF := 100, severity_max := "S2", days_persisted := 1,
    reason_codes := {"MNF"}, volume_lost_kL := 12/5, confidence := 41,
    sigComps := [], alert_date := some 3, close_reason := none }

def stW8 : MState :=
  { sigMap := [], confMap := [], incidents := [incW8],
    active := some 0, lastCommitted := some 0, suppressions := [], outputs := [] }

/-- C6 fingerprints: identical active signals, scores and volume
ranges; MNF absent on both sides. -/
def fpC6 : Fingerprint :=
  { signals_active := ["MNF"], signal_scores := [("MNF", 1)],
    mnf_range := none, mnf_value_Lph := none, mnf := none,
    avg_flow_rate_Lph := none, peak_flow_rate_Lph := none,
    volume_range := some (10, 20), volume_kL := some 15,
    duration_range := none, duration_hours := none }

/-- C5 incident: MNF-only fingerprint at 100 L/h, a Monday. -/
def incC5 : IncidentDict :=
  { subscores_ui := [("MNF", 1)], subscores := [],
    mnf_at_confirm_Lph := some 100, avg_mnf_Lph := none, mnf_Lph := none,
    mnf := none, MNF := none,
    avg_flow_Lph := none, avg_flow_rate := none, mean_flow := none, flow_rate := none,
    peak_flow_Lph := none, max_flow := none, peak_flow := none,
    volume_kL := none, duration_hours := none,
    start_day := some { month := 3, day := 3, dow := 0 } }

/-- C5 pattern A: perfect match but `auto_suppress = false`. -/
def patC5A : Pattern :=
  { pattern_id := "PA", site_id := "SITE1", category := "pool_fill",
    description := "A",
    signal_fingerprint := some
      { signals_active := ["MNF"], signal_scores := [("MNF", 1)],
        mnf_range := some (70, 130), mnf_value_Lph := some 100, mnf := none,
        avg_flow_rate_Lph := none, peak_flow_rate_Lph := none,
        volume_range := none, volume_kL := none,
        duration_range := none, duration_hours := none },
    time_fingerprint := some { days_of_week := [0], time_window_start := none,
                               time_window_end := none },
    recurrence_rule := none,
    auto_suppress := false, confidence := 6/10, times_matched := 0,
    times_confirmed_false := 0, times_was_real_leak := 0, is_active := true,
    season_tags := [], mnf_tolerance_factor := some (3/10), last_matched_at := none }

/-- C5 pattern B: slightly weaker match but `auto_suppress = true`. -/
def patC5B : Pattern :=
  { patC5A with
    pattern_id := "PB", description := "B",
    signal_fingerprint := some
      { signals_active := ["MNF"], signal_scores := [("MNF", 8/10)],
        mnf_range := some (70, 130), mnf_value_Lph := some 100, mnf := none,
        avg_flow_rate_Lph := none, peak_flow_rate_Lph := none,
        volume_range := none, volume_kL := none,
        duration_range := none, duration_hours := none },
    auto_suppress := true }

def dfC5 : List Pattern := [patC5A, patC5B]

end Leak

/-! # Theorems -/

/-! ### Claim C10 -/

/-- C10: for every series with fewer than two elements and every `k`,
`h`, `mad` with `h*mad ≥ 0`, `detect_cusum` returns 0: the cumulative
statistic starts at 0 and the recursion begins at index 1, so the first
element never contributes. -/
theorem c10_cusum_short_series (l : List ℚ) (k h mad : ℚ)
    (hlen : l.length < 2) (hpos : h * mad ≥ 0) :
    Leak.detect_cusum l k h mad = 0 := by
  unfold Leak.detect_cusum Leak.sPlus
  match l, hlen with
  | [], _ => simp
  | [x], _ =>
      simp [Leak.cusumTail, List.any]
      exact hpos

/-- Witness for C10 at a concrete short series. -/
theorem c10_cusum_short_series_witness :
    ([(5 : ℚ)].length < 2 ∧ (2 : ℚ) * 3 ≥ 0) ∧ Leak.detect_cusum [5] 1 2 3 = 0 :=
  ⟨⟨by decide, by norm_num⟩, c10_cusum_short_series [5] 1 2 3 (by decide) (by norm_num)⟩

/-! ### Infrastructure lemmas -/

namespace Leak

theorem listModify_length (l : List Incident) (i : Nat) (f : Incident → Incident) :
    (listModify l i f).length = l.length := by
  induction l generalizing i with
  | nil => rfl
  | cons x xs ih =>
      cases i with
      | zero => rfl
      | succ n => simpa [listModify] using ih n

theorem listModify_get?_ne (l : List Incident) (i j : Nat) (f : Incident → Incident)
    (h : j ≠ i) : (listModify l i f).get? j = l.get? j := by
  induction l generalizing i j with
  | nil => rfl
  | cons x xs ih =>
      cases i with
      | zero =>
          cases j with
          | zero => exact absurd rfl h
          | succ m => rfl
      | succ n =>
          cases j with
          | zero => rfl
          | succ m => simpa [listModify] using ih n m (fun hc => h (by omega))

theorem listModify_get?_eq (l : List Incident) (i : Nat) (f : Incident → Incident)
    (a : Incident) (h : l.get? i = some a) :
    (listModify l i f).get? i = some (f a) := by
  induction l generalizing i with
  | nil => cases h
  | cons x xs ih =>
      cases i with
      | zero =>
          simp only [List.get?] at h
          cases h
          rfl
      | succ n => simpa [listModify] using ih n (by simpa using h)

theorem listModify_concat_length (l : List Incident) (a : Incident)
    (f : Incident → Incident) :
    listModify (l ++ [a]) l.length f = l ++ [f a] := by
  induction l with
  | nil => rfl
  | cons x xs ih => simpa [listModify] using ih

theorem lookup_insert_pres {β : Type} {m : List (Int × β)} {k d : Int} {v c : β}
    (h : m.lookup k = some v) (hd : m.lookup d = none) :
    ((d, c) :: m).lookup k = some v := by
  have hne : k ≠ d := by
    rintro rfl
    rw [h] at hd
    cases hd
  have hbeq : (k == d) = false := beq_eq_false_iff_ne.mpr hne
  simpa [List.lookup, hbeq] using h

theorem resolveConf_lookup_pres {m : List (Int × ℚ)} {s : SubScores}
    {pd : Int} {δ mad : ℚ} {d k : Int} {v : ℚ} (h : m.lookup k = some v) :
    (resolveConf m s pd δ mad d).2.lookup k = some v := by
  unfold resolveConf
  cases hm : m.lookup d with
  | some c => simpa [hm] using h
  | none =>
      simp only [hm]
      exact lookup_insert_pres h hm

theorem resolveSig_lookup_pres {ctx : DetectorCtx} {m : List (Int × SigComp)}
    {d k : Int} {v : SigComp} (h : m.lookup k = some v) :
    (resolveSig ctx m d).2.lookup k = some v := by
  unfold resolveSig
  cases hm : m.lookup d with
  | some c => simpa [hm] using h
  | none =>
      simp only [hm]
      exact lookup_insert_pres h hm

theorem stepDay_confMap_pres {ctx : DetectorCtx} {θ : ℚ} {day0 : Int}
    {st : MState} {d k : Int} {v : ℚ} (h : st.confMap.lookup k = some v) :
    (stepDay ctx θ day0 st d).confMap.lookup k = some v := by
  unfold stepDay
  split
  · exact h
  · dsimp only
    split
    · exact h
    · split
      · exact resolveConf_lookup_pres h
      · exact resolveConf_lookup_pres h

theorem runDays_confMap_pres {ctx : DetectorCtx} {θ : ℚ} {day0 : Int}
    {st : MState} {ds : List Int} {d : Int} {v : ℚ}
    (h : st.confMap.lookup d = some v) :
    (runDays ctx θ day0 st ds).confMap.lookup d = some v := by
  induction ds generalizing st with
  | nil => exact h
  | cons x xs ih => exact ih (stepDay_confMap_pres h)

end Leak

/-! ### Claim C1 -/

/-- C1 (confidence freezing): once `confidence_by_date` holds a value
for date `d`, no later day of the run changes it (first conjunct, for
any run window and any starting state); and a rerun on a context whose
restored map is the previous run's final map — in particular one whose
history extends the old one with future days — reports the same stored
value for `d` (second conjunct). -/
theorem c1_confidence_freezing (ctx1 ctx2 : Leak.DetectorCtx) (d : Int) (v : ℚ) :
    (∀ (thetaMin : ℚ) (day0 : Int) (st : Leak.MState) (ds : List Int),
        st.confMap.lookup d = some v →
        (Leak.runDays ctx1 thetaMin day0 st ds).confMap.lookup d = some v) ∧
    (ctx2.confMap0 = (Leak.state_machine ctx1).confMap →
      (Leak.state_machine ctx1).confMap.lookup d = some v →
      (Leak.state_machine ctx2).confMap.lookup d = some v) := by
  constructor
  · intro θ day0 st ds h
    exact Leak.runDays_confMap_pres h
  · intro hrestore h
    have hinit : (Leak.initState ctx2).confMap.lookup d = some v := by
      show ctx2.confMap0.lookup d = some v
      rw [hrestore]
      exact h
    unfold Leak.state_machine
    cases hdays : Leak.daysOf ctx2 with
    | nil => exact hinit
    | cons d0 rest => exact Leak.runDays_confMap_pres hinit

/-- Witness for C1: a one-day run freezes confidence 41 for day 0; the
two-day rerun with the frozen map restored reports the same value. -/
theorem c1_confidence_freezing_witness :
    (Leak.state_machine Leak.ctxC1a).confMap.lookup 0 = some 41 ∧
    Leak.ctxC1b.confMap0 = (Leak.state_machine Leak.ctxC1a).confMap ∧
    (Leak.state_machine Leak.ctxC1b).confMap.lookup 0 = some 41 :=
  ⟨by decide, rfl,
    (c1_confidence_freezing Leak.ctxC1a Leak.ctxC1b 0 41).2 rfl (by decide)⟩

/-! ### Signal-scorer extraction lemmas -/

namespace Leak

theorem robust_median_nil : robust_median [] = 0 := rfl

theorem robust_mad_nil : robust_mad [] = 0 := rfl

theorem robust_mad_singleton (x : ℚ) : robust_mad [x] = 0 := by
  simp [robust_mad, robust_median, npMedian, sortAsc, insertAsc, pyAbs, sub_self]

theorem detect_cusum_singleton (x k h : ℚ) : detect_cusum [x] k h 0 = 0 := by
  simp [detect_cusum, sPlus, cusumTail, mul_zero]

theorem signals_deltaNF_eq (ctx : DetectorCtx) (d : Int) :
    (signals_and_score ctx d).deltaNF =
      pyMax 0 (((dailyLookup ctx d).map (·.NF_d)).getD 0 -
        (get_rolling_baseline ctx d (·.NF_d)).1) := rfl

theorem signals_NFMAD_eq (ctx : DetectorCtx) (d : Int) :
    (signals_and_score ctx d).NF_MAD = (get_rolling_baseline ctx d (·.NF_d)).2 := rfl

theorem signals_CUSUM_eq (ctx : DetectorCtx) (d : Int) :
    (signals_and_score ctx d).sub_scores.CUSUM =
      pyMax
        (detect_cusum (histNF ctx d) ctx.cfg.cusum_k ctx.cfg.cusum_h
          (robust_mad (histNF ctx d)))
        (detect_cusum (histA ctx d) ctx.cfg.cusum_k ctx.cfg.cusum_h
          (robust_mad (histA ctx d))) := rfl

theorem signals_AFTERHRS_eq (ctx : DetectorCtx) (d : Int) :
    (signals_and_score ctx d).sub_scores.AFTERHRS =
      (match dailyLookup ctx (d - 1) with
       | none => 0
       | some prevRow =>
          let A_d := ((dailyLookup ctx d).map (·.A_d)).getD 0
          let aB := get_rolling_baseline ctx d (·.A_d)
          let deltaA := A_d - aB.1
          let threshA := pyMax (3 * aB.2) ctx.cfg.sustained_after_hours_delta_kl
          let prev_deltaA := prevRow.A_d - (get_rolling_baseline ctx (d - 1) (·.A_d)).1
          if deltaA > threshA ∧ prev_deltaA > threshA then 1
          else pyMax 0 (pyMin 1 (deltaA / (2 * threshA)))) := rfl

theorem get_rolling_baseline_empty {ctx : DetectorCtx} {d : Int}
    (hwin : windowRows ctx d = []) (proj : DailyRow → ℚ) :
    get_rolling_baseline ctx d proj = (0, 0) := by
  unfold get_rolling_baseline
  rw [hwin]
  rfl

end Leak

/-! ### Claim C3 -/

/-- C3 counterexample: at a date whose trailing baseline window holds
no data, the scorer returns `deltaNF = NF_d` (here 100, not 0) and an
MNF sub-score of 1 (not 0): the claim that deltaNF and all five
sub-scores are 0 is false. -/
theorem c3_counterexample :
    Leak.windowRows Leak.ctxC3 0 = [] ∧
    (Leak.signals_and_score Leak.ctxC3 0).deltaNF = 100 ∧
    (Leak.signals_and_score Leak.ctxC3 0).deltaNF ≠ 0 ∧
    (Leak.signals_and_score Leak.ctxC3 0).sub_scores.MNF = 1 ∧
    (Leak.signals_and_score Leak.ctxC3 0).sub_scores.MNF ≠ 0 := by decide

/-- C3 amended: with no data in the trailing baseline window the robust
baseline median and MAD are 0, so `deltaNF = max(0, NF_d)` (not 0 in
general) and `NF_MAD = 0`; when moreover `d` is the only date at or
before `d` in the daily table and `d-1` is absent, the CUSUM and
AFTERHRS sub-scores are 0 (MNF, RESIDUAL and BURSTBF need not be, per
the counterexample). -/
theorem c3_empty_window_amended (ctx : Leak.DetectorCtx) (d : Int)
    (row : Leak.DailyRow)
    (hlook : Leak.dailyLookup ctx d = some row)
    (hwin : Leak.windowRows ctx d = [])
    (hhist : ctx.daily.filter (fun r => r.date ≤ d) = [row])
    (hprev : Leak.dailyLookup ctx (d - 1) = none) :
    (Leak.signals_and_score ctx d).deltaNF = Leak.pyMax 0 row.NF_d ∧
    (Leak.signals_and_score ctx d).NF_MAD = 0 ∧
    (Leak.signals_and_score ctx d).sub_scores.CUSUM = 0 ∧
    (Leak.signals_and_score ctx d).sub_scores.AFTERHRS = 0 := by
  have hbase := Leak.get_rolling_baseline_empty hwin
  have hNF : Leak.histNF ctx d = [row.NF_d] := by
    unfold Leak.histNF
    rw [hhist]
    rfl
  have hA : Leak.histA ctx d = [row.A_d] := by
    unfold Leak.histA
    rw [hhist]
    rfl
  refine ⟨?_, ?_, ?_, ?_⟩
  · rw [Leak.signals_deltaNF_eq, hlook, hbase]
    simp
  · rw [Leak.signals_NFMAD_eq, hbase]
  · rw [Leak.signals_CUSUM_eq, hNF, hA, Leak.robust_mad_singleton,
      Leak.robust_mad_singleton, Leak.detect_cusum_singleton,
      Leak.detect_cusum_singleton]
    rfl
  · rw [Leak.signals_AFTERHRS_eq, hprev]

/-- Witness for the amended C3 at the concrete empty-window context. -/
theorem c3_empty_window_amended_witness :
    (Leak.dailyLookup Leak.ctxC3 0 = some ⟨0, 100, 0⟩ ∧
      Leak.windowRows Leak.ctxC3 0 = []) ∧
    (Leak.signals_and_score Leak.ctxC3 0).deltaNF = Leak.pyMax 0 (100 : ℚ) ∧
    (Leak.signals_and_score Leak.ctxC3 0).sub_scores.CUSUM = 0 ∧
    (Leak.signals_and_score Leak.ctxC3 0).sub_scores.AFTERHRS = 0 := by
  have h := c3_empty_window_amended Leak.ctxC3 0 ⟨0, 100, 0⟩
    (by decide) (by decide) (by decide) (by decide)
  exact ⟨⟨by decide, by decide⟩, h.1, h.2.2.1, h.2.2.2⟩

/-! ### Claim C4 -/

/-- C4 counterexample: on day 4 of `ctxC4`, the code's AFTERHRS score
is 1 (the previous day's delta is compared against *today's*
threshold), while the claimed rule — previous day compared against its
own window's threshold — yields the ramp value 2/3. -/
theorem c4_counterexample :
    (Leak.signals_and_score Leak.ctxC4 4).sub_scores.AFTERHRS = 1 ∧
    Leak.afterhrs_score_specVersion Leak.ctxC4 4 = 2/3 ∧
    (Leak.signals_and_score Leak.ctxC4 4).sub_scores.AFTERHRS ≠
      Leak.afterhrs_score_specVersion Leak.ctxC4 4 := by decide

/-- C4 amended: when the previous day is absent from the daily index
the AFTERHRS score is 0; otherwise the score is 1 exactly when today's
deltaA and the previous day's deltaA both exceed *today's* threshA
(both compared against the current day's threshold, not the previous
day's own), and the clamped linear ramp `deltaA/(2*threshA)` otherwise. -/
theorem c4_afterhrs_amended (ctx : Leak.DetectorCtx) (d : Int) :
    (Leak.dailyLookup ctx (d - 1) = none →
      (Leak.signals_and_score ctx d).sub_scores.AFTERHRS = 0) ∧
    (∀ prevRow, Leak.dailyLookup ctx (d - 1) = some prevRow →
      (Leak.signals_and_score ctx d).sub_scores.AFTERHRS =
        (let A_d := ((Leak.dailyLookup ctx d).map (·.A_d)).getD 0
         let aB := Leak.get_rolling_baseline ctx d (·.A_d)
         let deltaA := A_d - aB.1
         let threshA := Leak.pyMax (3 * aB.2) ctx.cfg.sustained_after_hours_delta_kl
         let prev_deltaA := prevRow.A_d -
           (Leak.get_rolling_baseline ctx (d - 1) (·.A_d)).1
         if deltaA > threshA ∧ prev_deltaA > threshA then 1
         else Leak.clamp01 (deltaA / (2 * threshA)))) := by
  constructor
  · intro hnone
    rw [Leak.signals_AFTERHRS_eq, hnone]
  · intro prevRow hsome
    rw [Leak.signals_AFTERHRS_eq, hsome]
    rfl

/-- Witness for the amended C4 at the concrete context (both deltas
exceed today's threshold, so the score is 1). -/
theorem c4_afterhrs_amended_witness :
    Leak.dailyLookup Leak.ctxC4 3 = some ⟨3, 0, 98⟩ ∧
    (Leak.signals_and_score Leak.ctxC4 4).sub_scores.AFTERHRS = 1 := by
  refine ⟨by decide, ?_⟩
  rw [(c4_afterhrs_amended Leak.ctxC4 4).2 ⟨3, 0, 98⟩ (by decide)]
  decide

/-! ### Claim C6 -/

/-- C6 counterexample: with MNF absent from both fingerprints (and
signals, scores and volume ranges identical), the claimed skip-absent
normalization yields 1, but the code yields 15/17: the MNF feature is
not skipped — it contributes a neutral 1/2 with its 0.20 weight. -/
theorem c6_counterexample :
    Leak.calculate_signal_similarity (some Leak.fpC6) (some Leak.fpC6) (some (3/10)) = 15/17 ∧
    Leak.signal_similarity_specVersion Leak.fpC6 Leak.fpC6 (some (3/10)) = 1 ∧
    Leak.calculate_signal_similarity (some Leak.fpC6) (some Leak.fpC6) (some (3/10)) ≠
      Leak.signal_similarity_specVersion Leak.fpC6 Leak.fpC6 (some (3/10)) := by decide

/-- C6 amended: the similarity is the weighted blend normalized by the
sum of the applied weights, where the MNF feature is always applied
(weight 0.20, neutral similarity 1/2 when MNF is absent on either
side), the signal-set feature is applied whenever either side has
active signals (one-sided absence scores 0, it is not skipped), the
intensity feature needs both score dicts nonempty with a common signal,
and the volume/duration features need both ranges present with positive
union width; the normalizing denominator therefore always includes the
MNF weight and no zero-denominator guard is ever taken. -/
theorem c6_weighted_blend_amended (fp1 fp2 : Leak.Fingerprint) (tol : Option ℚ) :
    Leak.calculate_signal_similarity (some fp1) (some fp2) tol =
      Leak.signal_similarity_blend fp1 fp2 tol := by
  have h1 : 0 ≤ (Leak.featSignalSet fp1 fp2).2 := by
    unfold Leak.featSignalSet
    dsimp only
    split_ifs <;> norm_num
  have h2 : 0 ≤ (Leak.featIntensity fp1 fp2).2 := by
    unfold Leak.featIntensity
    dsimp only
    split_ifs <;> norm_num
  have h3 : (Leak.featMnf fp1 fp2 tol).2 = 2/10 := rfl
  have h4 : 0 ≤ (Leak.featVolume fp1 fp2).2 := by
    unfold Leak.featVolume
    rcases fp1.volume_range with _ | v1 <;> rcases fp2.volume_range with _ | v2 <;>
      dsimp only <;> try norm_num
    split_ifs <;> norm_num
  have h5 : 0 ≤ (Leak.featDuration fp1 fp2).2 := by
    unfold Leak.featDuration
    rcases fp1.duration_range with _ | v1 <;> rcases fp2.duration_range with _ | v2 <;>
      dsimp only <;> try norm_num
    split_ifs <;> norm_num
  have hw : 0 < (Leak.featSignalSet fp1 fp2).2 + (Leak.featIntensity fp1 fp2).2 +
      (Leak.featMnf fp1 fp2 tol).2 + (Leak.featVolume fp1 fp2).2 +
      (Leak.featDuration fp1 fp2).2 := by
    rw [h3]
    linarith
  unfold Leak.calculate_signal_similarity Leak.signal_similarity_blend
  simp only [List.map_cons, List.map_nil, List.sum_cons, List.sum_nil]
  rw [if_pos hw]
  congr 1 <;> ring

/-! ### Claim C5 -/

namespace Leak

theorem mem_insertDescByFinal {b m : MatchRec} {l : List MatchRec} :
    b ∈ insertDescByFinal m l ↔ b = m ∨ b ∈ l := by
  induction l with
  | nil => simp [insertDescByFinal]
  | cons x xs ih =>
      simp only [insertDescByFinal]
      split_ifs with hx
      · simp only [List.mem_cons, ih]
        tauto
      · simp only [List.mem_cons]

theorem insertDescByFinal_pairwise {m : MatchRec} {l : List MatchRec}
    (h : l.Pairwise (fun a b => b.final_score ≤ a.final_score)) :
    (insertDescByFinal m l).Pairwise
      (fun a b => b.final_score ≤ a.final_score) := by
  induction l with
  | nil => simp [insertDescByFinal]
  | cons x xs ih =>
      rw [List.pairwise_cons] at h
      simp only [insertDescByFinal]
      split_ifs with hx
      · rw [List.pairwise_cons]
        refine ⟨?_, ih h.2⟩
        intro b hb
        rcases mem_insertDescByFinal.mp hb with rfl | hb2
        · exact hx
        · exact h.1 b hb2
      · rw [List.pairwise_cons]
        refine ⟨?_, List.pairwise_cons.mpr h⟩
        intro b hb
        rcases List.mem_cons.mp hb with rfl | hb2
        · exact le_of_lt (lt_of_not_le hx)
        · exact le_trans (h.1 b hb2) (le_of_lt (lt_of_not_le hx))

theorem sortDescByFinal_sorted (l : List MatchRec) :
    (sortDescByFinal l).Pairwise
      (fun a b => b.final_score ≤ a.final_score) := by
  unfold sortDescByFinal
  have h : ∀ (acc : List MatchRec),
      acc.Pairwise (fun a b => b.final_score ≤ a.final_score) →
      (l.foldl (fun acc m => insertDescByFinal m acc) acc).Pairwise
        (fun a b => b.final_score ≤ a.final_score) := by
    induction l with
    | nil => intro acc hacc; exact hacc
    | cons x xs ih =>
        intro acc hacc
        exact ih _ (insertDescByFinal_pairwise hacc)
  exact h [] List.Pairwise.nil

/-- In a list sorted descending by final score, the first element
satisfying a predicate has the largest final score among all elements
satisfying it. -/
theorem find?_max_final {p : MatchRec → Bool} {l : List MatchRec} {m : MatchRec}
    (hs : l.Pairwise (fun a b => b.final_score ≤ a.final_score))
    (hf : l.find? p = some m) :
    ∀ m' ∈ l, p m' = true → m'.final_score ≤ m.final_score := by
  induction l with
  | nil => cases hf
  | cons x xs ih =>
      rw [List.pairwise_cons] at hs
      cases hx : p x with
      | true =>
          rw [List.find?_cons_of_pos _ hx] at hf
          cases hf
          intro m' hm' _
          rcases List.mem_cons.mp hm' with rfl | hmem
          · exact le_refl _
          · exact hs.1 m' hmem
      | false =>
          have hx' : ¬ p x = true := by
            rw [hx]
            exact Bool.false_ne_true
          rw [List.find?_cons_of_neg _ hx'] at hf
          intro m' hm' hpm'
          rcases List.mem_cons.mp hm' with rfl | hmem
          · rw [hx] at hpm'
            cases hpm'
          · exact ih hs.2 hf m' hmem hpm'

theorem match_incident_sorted (inc : IncidentDict) (site_id : Option String)
    (df : List Pattern) :
    (match_incident_to_patterns inc site_id df).Pairwise
      (fun a b => b.final_score ≤ a.final_score) := by
  unfold match_incident_to_patterns
  dsimp only
  split_ifs
  · exact List.Pairwise.nil
  · exact List.Pairwise.nil
  · exact sortDescByFinal_sorted _

end Leak

/-- C5 counterexample: the best (highest final-score) strong match has
`auto_suppress = false`, yet `check_should_suppress` returns true, and
the match it acts on is the lower-ranked strong match "PB" that carries
the flag: suppression is not decided by the best strong match alone. -/
theorem c5_counterexample :
    (Leak.bestStrongMatch
      (Leak.match_incident_to_patterns Leak.incC5 (some "SITE1") Leak.dfC5)).map
        (·.auto_suppress) = some false ∧
    (Leak.check_should_suppress Leak.incC5 "SITE1" Leak.dfC5 "T").1 = true ∧
    ((Leak.check_should_suppress Leak.incC5 "SITE1" Leak.dfC5 "T").2.1).map
        (·.pattern_id) = some "PB" := by decide

/-- C5 amended: `check_should_suppress` returns true exactly when SOME
strong match has `auto_suppress`; the match acted on is a strong
auto-suppress match whose final score is maximal among ALL strong
auto-suppress matches (it is the first such match in the
final-score-sorted list), and that pattern's rows in the store get
`times_matched` incremented and the match timestamp set. -/
theorem c5_suppress_amended (inc : Leak.IncidentDict) (site : String)
    (df : List Leak.Pattern) (now : String) :
    ((Leak.check_should_suppress inc site df now).1 = true ↔
      ∃ m ∈ Leak.match_incident_to_patterns inc (some site) df,
        m.is_strong_match = true ∧ m.auto_suppress = true) ∧
    (∀ m, (Leak.check_should_suppress inc site df now).2.1 = some m →
      m ∈ Leak.match_incident_to_patterns inc (some site) df ∧
      m.is_strong_match = true ∧ m.auto_suppress = true ∧
      (∀ m' ∈ Leak.match_incident_to_patterns inc (some site) df,
        m'.is_strong_match = true → m'.auto_suppress = true →
          m'.final_score ≤ m.final_score) ∧
      ∀ p ∈ df, p.pattern_id = m.pattern_id →
        Leak.bumpPattern now p ∈
          (Leak.check_should_suppress inc site df now).2.2) := by
  cases hf : (Leak.match_incident_to_patterns inc (some site) df).find?
      (fun m => m.is_strong_match ∧ m.auto_suppress) with
  | none =>
      constructor
      · simp only [Leak.check_should_suppress, hf]
        constructor
        · intro h
          cases h
        · rintro ⟨m, hm, hs, ha⟩
          have := List.find?_eq_none.mp hf m hm
          simp [hs, ha] at this
      · intro m hm
        simp only [Leak.check_should_suppress, hf] at hm
        cases hm
  | some m0 =>
      have hp := List.find?_some hf
      have hmem : m0 ∈ Leak.match_incident_to_patterns inc (some site) df :=
        List.mem_of_find?_eq_some hf
      simp only [Bool.decide_and, Bool.and_eq_true, decide_eq_true_eq] at hp
      constructor
      · simp only [Leak.check_should_suppress, hf]
        exact ⟨fun _ => ⟨m0, hmem, hp.1, hp.2⟩, fun _ => trivial⟩
      · intro m hm
        have hm0 : m = m0 := by
          simp only [Leak.check_should_suppress, hf, Option.some.injEq] at hm
          exact hm.symm
        subst hm0
        refine ⟨hmem, hp.1, hp.2, ?_, ?_⟩
        · intro m' hm' hs' ha'
          exact Leak.find?_max_final
            (Leak.match_incident_sorted inc (some site) df) hf m' hm'
            (by simp only [Bool.decide_and, Bool.and_eq_true, decide_eq_true_eq]
                exact ⟨hs', ha'⟩)
        intro p hpdf hpid
        simp only [Leak.check_should_suppress, hf]
        unfold Leak.update_pattern_match
        have hany : df.any (fun q => q.pattern_id = m.pattern_id) = true := by
          rw [List.any_eq_true]
          exact ⟨p, hpdf, by simp [hpid]⟩
        rw [if_pos hany]
        have hval : Leak.bumpPattern now p =
            (fun q => if q.pattern_id = m.pattern_id then Leak.bumpPattern now q else q) p := by
          simp [hpid]
        rw [hval]
        exact List.mem_map_of_mem _ hpdf

/-- Witness for the amended C5: at the concrete two-pattern store the
suppression fires, and the match acted on is a strong auto-suppress
match of maximal final score among the strong auto-suppress matches. -/
theorem c5_suppress_amended_witness :
    (∃ m ∈ Leak.match_incident_to_patterns Leak.incC5 (some "SITE1") Leak.dfC5,
      m.is_strong_match = true ∧ m.auto_suppress = true) ∧
    ∃ m, (Leak.check_should_suppress Leak.incC5 "SITE1" Leak.dfC5 "T").2.1 =
        some m ∧
      m ∈ Leak.match_incident_to_patterns Leak.incC5 (some "SITE1") Leak.dfC5 ∧
      m.is_strong_match = true ∧ m.auto_suppress = true ∧
      ∀ m' ∈ Leak.match_incident_to_patterns Leak.incC5 (some "SITE1") Leak.dfC5,
        m'.is_strong_match = true → m'.auto_suppress = true →
          m'.final_score ≤ m.final_score := by
  have h := c5_suppress_amended Leak.incC5 "SITE1" Leak.dfC5 "T"
  refine ⟨h.1.mp (by decide), ?_⟩
  cases heq : (Leak.check_should_suppress Leak.incC5 "SITE1" Leak.dfC5 "T").2.1 with
  | none => exact absurd heq (by decide)
  | some m =>
      obtain ⟨h1, h2, h3, h4, _⟩ := h.2 m heq
      exact ⟨m, rfl, h1, h2, h3, h4⟩

/-! ### Claim C7 -/

/-- C7 counterexample: with the trigger firing on processed days 1, 2
and 4 but day 3 processed without triggering (`merge_gap_days = 2`),
the run produces TWO incidents, not one spanning incident: the WATCH
incident closes on day 3 and day 4 opens a fresh one. -/
theorem c7_counterexample :
    Leak.daysOf Leak.ctxC7 = [1, 2, 3, 4] ∧
    Leak.trigAt Leak.ctxC7 1 ∧ Leak.trigAt Leak.ctxC7 2 ∧
    ¬ Leak.trigAt Leak.ctxC7 3 ∧ Leak.trigAt Leak.ctxC7 4 ∧
    Leak.ctxC7.cfg.merge_gap_days = 2 ∧
    (Leak.state_machine Leak.ctxC7).incidents.length = 2 ∧
    ((Leak.state_machine Leak.ctxC7).incidents.map (·.days_persisted)) = [2, 1] := by
  decide

/-- C7 amended: when days 1, 2 and 4 trigger and day 3 is ABSENT from
the processed series (a data gap of 1 day, within `merge_gap_days = 2`),
the small-gap bridge applies and exactly one incident results, spanning
day 1 to day 4 with `days_persisted = 4` (3 real days + 1 bridged). -/
theorem c7_merge_amended :
    Leak.daysOf Leak.ctxC7m = [1, 2, 4] ∧
    Leak.trigAt Leak.ctxC7m 1 ∧ Leak.trigAt Leak.ctxC7m 2 ∧
    Leak.trigAt Leak.ctxC7m 4 ∧
    Leak.ctxC7m.cfg.merge_gap_days = 2 ∧
    (Leak.state_machine Leak.ctxC7m).incidents.length = 1 ∧
    ((Leak.state_machine Leak.ctxC7m).incidents.head?.map
      (fun i => (i.start_day, i.last_day, i.days_persisted))) = some (1, 4, 4) := by
  decide

/-! ### Claim C9 -/

namespace Leak

theorem seedIncident_status (ctx : DetectorCtx) (d : Int) (sc : SigComp)
    (severity : String) (conf : ℚ) :
    (seedIncident ctx d sc severity conf).status = "WATCH" := rfl

theorem triggerBranch_none (ctx : DetectorCtx) (d : Int) (sc : SigComp)
    (severity : String) (conf : ℚ) (incs : List Incident) (lc : Option Nat) :
    triggerBranch ctx d sc severity conf incs none lc =
      (incs ++ [seedIncident ctx d sc severity conf],
       some incs.length, some incs.length) := rfl

theorem closureCheck_seed_close (θ : ℚ) (sc : SigComp) (incs : List Incident)
    (ctx : DetectorCtx) (d : Int) (severity : String) (conf : ℚ)
    (hc : sc.deltaNF ≤ pyMax (3 * sc.NF_MAD) θ) :
    closureCheck θ sc (incs ++ [seedIncident ctx d sc severity conf])
        (some incs.length) =
      (incs ++ [{ seedIncident ctx d sc severity conf with
                  close_reason := some "self-resolved/benign" }], none) := by
  unfold closureCheck
  dsimp only
  rw [List.get?_concat_length]
  dsimp only
  rw [if_pos ⟨by rw [seedIncident_status]; decide, by rw [seedIncident_status]; decide⟩,
      if_pos hc, listModify_concat_length]

end Leak

/-- C9: on a processed, unsuppressed day where the trigger fires with
no active incident and the day's deltaNF is at most
`max(3*NF_MAD, theta_min)`, the newly created WATCH incident is closed
the same day with its close reason set, the day's emitted status is OK,
and the incident stays in the historical incident list (the list grew
by exactly that incident). -/
theorem c9_same_day_open_close (ctx : Leak.DetectorCtx) (θ : ℚ) (day0 : Int)
    (st : Leak.MState) (d : Int)
    (hwarm : ¬(d - day0 < ctx.cfg.baseline_window_days))
    (hsup : ¬ Leak.suppressCond ctx θ (Leak.resolveSig ctx st.sigMap d).1 d)
    (hact : st.active = none)
    (htrig : Leak.triggerCond θ (Leak.resolveSig ctx st.sigMap d).1
      (Leak.get_severity (Leak.resolveSig ctx st.sigMap d).1.deltaNF
        ctx.cfg.severity_bands_lph))
    (hclose : (Leak.resolveSig ctx st.sigMap d).1.deltaNF ≤
      Leak.pyMax (3 * (Leak.resolveSig ctx st.sigMap d).1.NF_MAD) θ) :
    ∃ inc out,
      (Leak.stepDay ctx θ day0 st d).incidents = st.incidents ++ [inc] ∧
      inc.close_reason = some "self-resolved/benign" ∧
      inc.status = "WATCH" ∧
      (Leak.stepDay ctx θ day0 st d).active = none ∧
      (Leak.stepDay ctx θ day0 st d).outputs = st.outputs ++ [(d, out)] ∧
      out.status = "OK" := by
  unfold Leak.stepDay
  rw [if_neg hwarm]
  dsimp only
  rw [if_neg hsup, if_pos htrig, hact]
  rw [Leak.triggerBranch_none]
  dsimp only
  rw [Leak.closureCheck_seed_close _ _ _ _ _ _ _ hclose]
  dsimp only
  exact ⟨_, _, rfl, rfl, rfl, rfl, rfl, rfl⟩

/-- Witness for C9: day 4 of `ctxC9` triggers (severity S2,
deltaNF = 100 > theta_min = 1) while `3*NF_MAD = 180 ≥ 100`, so the
fresh incident closes the same day and the day's record is OK. -/
theorem c9_same_day_open_close_witness :
    ∃ inc out,
      (Leak.stepDay Leak.ctxC9 (Leak.get_adaptive_threshold Leak.ctxC9) 1
        (Leak.initState Leak.ctxC9) 4).incidents =
        (Leak.initState Leak.ctxC9).incidents ++ [inc] ∧
      inc.close_reason = some "self-resolved/benign" ∧
      inc.status = "WATCH" ∧
      (Leak.stepDay Leak.ctxC9 (Leak.get_adaptive_threshold Leak.ctxC9) 1
        (Leak.initState Leak.ctxC9) 4).active = none ∧
      (Leak.stepDay Leak.ctxC9 (Leak.get_adaptive_threshold Leak.ctxC9) 1
        (Leak.initState Leak.ctxC9) 4).outputs =
        (Leak.initState Leak.ctxC9).outputs ++ [(4, out)] ∧
      out.status = "OK" :=
  c9_same_day_open_close Leak.ctxC9 (Leak.get_adaptive_threshold Leak.ctxC9) 1
    (Leak.initState Leak.ctxC9) 4 (by decide) (by decide) rfl (by decide) (by decide)

/-! ### Claim C2 -/

namespace Leak

/-- The running-max severity update keeps rank at least 4. -/
theorem sevRank_update_ge {severity old : String} (h : 4 ≤ sevRank old) :
    4 ≤ sevRank (if sevRank severity > sevRank old then severity else old) := by
  split_ifs with hgt
  · omega
  · exact h

/-- A CALL incident whose running severity rank is at least 4 keeps
status CALL (and rank at least 4) through the update-and-escalate
block: the INVESTIGATE assignment is guarded by rank ≤ 3 and the CALL
branch re-fires on rank ≥ 4. -/
theorem applyUpdates_call4 (cfg : Cfg) (d : Int) (sc : SigComp)
    (severity : String) (conf : ℚ) (inc : Incident)
    (h1 : inc.status = "CALL") (h2 : 4 ≤ sevRank inc.severity_max) :
    (applyUpdates cfg d sc severity conf inc).status = "CALL" ∧
    4 ≤ sevRank (applyUpdates cfg d sc severity conf inc).severity_max := by
  unfold applyUpdates
  dsimp only
  set sev' := if sevRank severity > sevRank inc.severity_max then severity
    else inc.severity_max with hsev
  have hr : 4 ≤ sevRank sev' := sevRank_update_ge h2
  split_ifs <;>
    first
      | exact ⟨rfl, hr⟩
      | exact ⟨h1, hr⟩
      | omega

/-- CALL-with-rank-4 preservation through an in-place list mutation, for
any mutator that preserves the property. -/
theorem listModify_pres_call4 {incs : List Incident} {i : Nat} (j : Nat)
    {f : Incident → Incident}
    (hf : ∀ a, a.status = "CALL" → 4 ≤ sevRank a.severity_max →
      (f a).status = "CALL" ∧ 4 ≤ sevRank (f a).severity_max)
    {inc : Incident} (h : incs.get? i = some inc)
    (h1 : inc.status = "CALL") (h2 : 4 ≤ sevRank inc.severity_max) :
    ∃ inc', (listModify incs j f).get? i = some inc' ∧
      inc'.status = "CALL" ∧ 4 ≤ sevRank inc'.severity_max := by
  by_cases hij : i = j
  · subst hij
    exact ⟨f inc, listModify_get?_eq incs i f inc h, hf inc h1 h2⟩
  · exact ⟨inc, by rw [listModify_get?_ne incs j i f hij]; exact h, h1, h2⟩

theorem get?_some_lt {l : List Incident} {i : Nat} {a : Incident}
    (h : l.get? i = some a) : i < l.length := by
  by_contra hh
  rw [List.get?_eq_none.mpr (Nat.le_of_not_lt hh)] at h
  cases h

/-- CALL-with-rank-4 preservation through an append. -/
theorem append_pres_call4 {incs : List Incident} {i : Nat} (l' : List Incident)
    {inc : Incident} (h : incs.get? i = some inc)
    (h1 : inc.status = "CALL") (h2 : 4 ≤ sevRank inc.severity_max) :
    ∃ inc', (incs ++ l').get? i = some inc' ∧
      inc'.status = "CALL" ∧ 4 ≤ sevRank inc'.severity_max := by
  refine ⟨inc, ?_, h1, h2⟩
  rw [List.get?_append (get?_some_lt h)]
  exact h

theorem triggerBranch_pres_call4 (ctx : DetectorCtx) (d : Int) (sc : SigComp)
    (severity : String) (conf : ℚ) (incs : List Incident)
    (act lc : Option Nat) {i : Nat} {inc : Incident}
    (h : incs.get? i = some inc)
    (h1 : inc.status = "CALL") (h2 : 4 ≤ sevRank inc.severity_max) :
    ∃ inc', (triggerBranch ctx d sc severity conf incs act lc).1.get? i = some inc' ∧
      inc'.status = "CALL" ∧ 4 ≤ sevRank inc'.severity_max := by
  have hext : ∀ (g : Incident → Incident),
      (∀ a, (g a).status = a.status ∧ (g a).severity_max = a.severity_max) →
      ∀ a : Incident, a.status = "CALL" → 4 ≤ sevRank a.severity_max →
        (applyUpdates ctx.cfg d sc severity conf (g a)).status = "CALL" ∧
        4 ≤ sevRank (applyUpdates ctx.cfg d sc severity conf (g a)).severity_max := by
    intro g hg a ha hr
    exact applyUpdates_call4 ctx.cfg d sc severity conf (g a)
      ((hg a).1.trans ha) (((hg a).2).symm ▸ hr)
  unfold triggerBranch
  cases act with
  | none => exact append_pres_call4 _ h h1 h2
  | some i0 =>
      dsimp only
      cases hg0 : incs.get? i0 with
      | none => exact ⟨inc, h, h1, h2⟩
      | some inc0 =>
          dsimp only
          split_ifs with hgap1 hgap2
          · exact listModify_pres_call4 i0
              (hext _ (fun a => ⟨rfl, rfl⟩)) h h1 h2
          · exact listModify_pres_call4 i0
              (hext _ (fun a => ⟨rfl, rfl⟩)) h h1 h2
          · cases lc with
            | none => exact append_pres_call4 _ h h1 h2
            | some j =>
                dsimp only
                cases hlc : incs.get? j with
                | none => exact append_pres_call4 _ h h1 h2
                | some lcInc =>
                    dsimp only
                    split_ifs with hin
                    · exact listModify_pres_call4 j
                        (hext _ (fun a => ⟨rfl, rfl⟩)) h h1 h2
                    · exact append_pres_call4 _ h h1 h2

theorem closureCheck_pres_call4 (θ : ℚ) (sc : SigComp) (incs : List Incident)
    (act : Option Nat) {i : Nat} {inc : Incident}
    (h : incs.get? i = some inc)
    (h1 : inc.status = "CALL") (h2 : 4 ≤ sevRank inc.severity_max) :
    ∃ inc', (closureCheck θ sc incs act).1.get? i = some inc' ∧
      inc'.status = "CALL" ∧ 4 ≤ sevRank inc'.severity_max := by
  unfold closureCheck
  cases act with
  | none => exact ⟨inc, h, h1, h2⟩
  | some a =>
      dsimp only
      cases ha : incs.get? a with
      | none => exact ⟨inc, h, h1, h2⟩
      | some ainc =>
          dsimp only
          split_ifs with hw hc
          · exact listModify_pres_call4 a (fun b hb hr => ⟨hb, hr⟩) h h1 h2
          · exact ⟨inc, h, h1, h2⟩
          · exact ⟨inc, h, h1, h2⟩

theorem closeActive_pres_call4 (incs : List Incident)
    (act : Option Nat) {i : Nat} {inc : Incident}
    (h : incs.get? i = some inc)
    (h1 : inc.status = "CALL") (h2 : 4 ≤ sevRank inc.severity_max) :
    ∃ inc', (closeActive incs act).1.get? i = some inc' ∧
      inc'.status = "CALL" ∧ 4 ≤ sevRank inc'.severity_max := by
  unfold closeActive
  cases act with
  | none => exact ⟨inc, h, h1, h2⟩
  | some a =>
      dsimp only
      cases ha : incs.get? a with
      | none => exact ⟨inc, h, h1, h2⟩
      | some ainc =>
          dsimp only
          split_ifs with hw
          · exact listModify_pres_call4 a (fun b hb hr => ⟨hb, hr⟩) h h1 h2
          · exact ⟨inc, h, h1, h2⟩

theorem stepDay_pres_call4 (ctx : DetectorCtx) (θ : ℚ) (day0 : Int)
    (st : MState) (d : Int) {i : Nat} {inc : Incident}
    (h : st.incidents.get? i = some inc)
    (h1 : inc.status = "CALL") (h2 : 4 ≤ sevRank inc.severity_max) :
    ∃ inc', (stepDay ctx θ day0 st d).incidents.get? i = some inc' ∧
      inc'.status = "CALL" ∧ 4 ≤ sevRank inc'.severity_max := by
  unfold stepDay
  split
  · exact ⟨inc, h, h1, h2⟩
  · dsimp only
    split
    · exact ⟨inc, h, h1, h2⟩
    · split
      · obtain ⟨inc1, hg1, hs1, hr1⟩ := triggerBranch_pres_call4 ctx d _ _ _
          st.incidents st.active st.lastCommitted h h1 h2
        exact closureCheck_pres_call4 θ _ _ _ hg1 hs1 hr1
      · exact closeActive_pres_call4 st.incidents st.active h h1 h2

theorem runDays_pres_call4 (ctx : DetectorCtx) (θ : ℚ) (day0 : Int)
    (st : MState) (ds : List Int) {i : Nat} {inc : Incident}
    (h : st.incidents.get? i = some inc)
    (h1 : inc.status = "CALL") (h2 : 4 ≤ sevRank inc.severity_max) :
    ∃ inc', (runDays ctx θ day0 st ds).incidents.get? i = some inc' ∧
      inc'.status = "CALL" ∧ 4 ≤ sevRank inc'.severity_max := by
  induction ds generalizing st inc with
  | nil => exact ⟨inc, h, h1, h2⟩
  | cons x xs ih =>
      obtain ⟨inc1, hg1, hs1, hr1⟩ := stepDay_pres_call4 ctx θ day0 st x h h1 h2
      exact ih _ hg1 hs1 hr1

end Leak

/-- C2 counterexample: in one 11-day run, the single incident is CALL
on day 10 (rank-2 severity, confidence 70+ route) and is set back to
INVESTIGATE on day 11, when its frozen confidence drops to 69: the
escalation is not monotonic as claimed. -/
theorem c2_counterexample :
    (((Leak.state_machine Leak.ctxC2).outputs.lookup 10).map (·.status)) = some "CALL" ∧
    (((Leak.state_machine Leak.ctxC2).outputs.lookup 11).map (·.status)) =
      some "INVESTIGATE" ∧
    (Leak.state_machine Leak.ctxC2).incidents.length = 1 := by decide

/-- C2 amended: once an incident is CALL with running severity rank at
least 4, no later processed day of the run changes its status — the
downgrade is only possible for a CALL reached through the rank-2/3
high-confidence route (as the counterexample shows), because the
INVESTIGATE reassignment is guarded by severity rank ≤ 3. -/
theorem c2_escalation_amended (ctx : Leak.DetectorCtx) (θ : ℚ) (day0 : Int)
    (st : Leak.MState) (ds : List Int) (i : Nat) (inc : Leak.Incident)
    (h : st.incidents.get? i = some inc)
    (h1 : inc.status = "CALL")
    (h2 : 4 ≤ Leak.sevRank inc.severity_max) :
    ∃ inc', (Leak.runDays ctx θ day0 st ds).incidents.get? i = some inc' ∧
      inc'.status = "CALL" ∧ 4 ≤ Leak.sevRank inc'.severity_max :=
  Leak.runDays_pres_call4 ctx θ day0 st ds h h1 h2

/-- Witness for the amended C2: a standing rank-4 CALL incident stays
CALL across a further processed day. -/
theorem c2_escalation_amended_witness :
    ∃ inc', (Leak.runDays Leak.ctxC2 1 1 Leak.stCall4 [12]).incidents.get? 0 =
        some inc' ∧
      inc'.status = "CALL" ∧ 4 ≤ Leak.sevRank inc'.severity_max :=
  c2_escalation_amended Leak.ctxC2 1 1 Leak.stCall4 [12] 0 Leak.incCall4
    (by decide) (by decide) (by decide)

/-! ### Claim C8 -/

namespace Leak

theorem pyMax_left_le (a b : ℚ) : a ≤ pyMax a b := by
  unfold pyMax
  split_ifs with h
  · exact h
  · exact le_refl a

theorem pyMaxI_left_le (a b : Int) : a ≤ pyMaxI a b := by
  unfold pyMaxI
  split_ifs with h
  · exact h
  · exact le_refl a

theorem signals_and_score_deltaNF_nonneg (ctx : DetectorCtx) (d : Int) :
    0 ≤ (signals_and_score ctx d).deltaNF := by
  rw [signals_deltaNF_eq]
  exact pyMax_left_le 0 _

theorem lookup_mem {β : Type} {m : List (Int × β)} {k : Int} {v : β}
    (h : m.lookup k = some v) : (k, v) ∈ m := by
  induction m with
  | nil => cases h
  | cons p t ih =>
      obtain ⟨a, b⟩ := p
      by_cases hk : k = a
      · subst hk
        simp only [List.lookup, beq_self_eq_true] at h
        cases h
        exact List.mem_cons_self _ _
      · have hbeq : (k == a) = false := beq_eq_false_iff_ne.mpr hk
        simp only [List.lookup, hbeq] at h
        exact List.mem_cons_of_mem _ (ih h)

theorem resolveSig_nonneg {ctx : DetectorCtx} {m : List (Int × SigComp)} {d : Int}
    (h : sigMapNonneg m) :
    0 ≤ (resolveSig ctx m d).1.deltaNF ∧ sigMapNonneg (resolveSig ctx m d).2 := by
  unfold resolveSig
  cases hm : m.lookup d with
  | some c =>
      dsimp only
      exact ⟨h (d, c) (lookup_mem hm), h⟩
  | none =>
      dsimp only
      refine ⟨signals_and_score_deltaNF_nonneg ctx d, ?_⟩
      intro p hp
      rcases List.mem_cons.mp hp with hp1 | hp2
      · rw [hp1]
        exact signals_and_score_deltaNF_nonneg ctx d
      · exact h p hp2

/-- The update-and-escalate block only grows the three accumulators. -/
theorem applyUpdates_mono (cfg : Cfg) (d : Int) (sc : SigComp)
    (severity : String) (conf : ℚ) (inc : Incident) (hδ : 0 ≤ sc.deltaNF) :
    inc.max_deltaNF ≤ (applyUpdates cfg d sc severity conf inc).max_deltaNF ∧
    inc.volume_lost_kL ≤ (applyUpdates cfg d sc severity conf inc).volume_lost_kL ∧
    inc.days_persisted ≤ (applyUpdates cfg d sc severity conf inc).days_persisted := by
  have hv : 0 ≤ sc.deltaNF * 24 / 1000 :=
    div_nonneg (mul_nonneg hδ (by norm_num)) (by norm_num)
  unfold applyUpdates
  dsimp only
  split_ifs <;> exact ⟨pyMax_left_le _ _, by linarith, le_refl _⟩

theorem listModify_pres_mono {incs : List Incident} {i : Nat} (j : Nat)
    {f : Incident → Incident}
    (hf : ∀ a : Incident, a.max_deltaNF ≤ (f a).max_deltaNF ∧
      a.volume_lost_kL ≤ (f a).volume_lost_kL ∧
      a.days_persisted ≤ (f a).days_persisted)
    {inc : Incident} (h : incs.get? i = some inc) :
    ∃ inc', (listModify incs j f).get? i = some inc' ∧
      inc.max_deltaNF ≤ inc'.max_deltaNF ∧
      inc.volume_lost_kL ≤ inc'.volume_lost_kL ∧
      inc.days_persisted ≤ inc'.days_persisted := by
  by_cases hij : i = j
  · subst hij
    exact ⟨f inc, listModify_get?_eq incs i f inc h, hf inc⟩
  · exact ⟨inc, by rw [listModify_get?_ne incs j i f hij]; exact h,
      le_refl _, le_refl _, le_refl _⟩

theorem append_pres_mono {incs : List Incident} {i : Nat} (l' : List Incident)
    {inc : Incident} (h : incs.get? i = some inc) :
    ∃ inc', (incs ++ l').get? i = some inc' ∧
      inc.max_deltaNF ≤ inc'.max_deltaNF ∧
      inc.volume_lost_kL ≤ inc'.volume_lost_kL ∧
      inc.days_persisted ≤ inc'.days_persisted := by
  refine ⟨inc, ?_, le_refl _, le_refl _, le_refl _⟩
  rw [List.get?_append (get?_some_lt h)]
  exact h

theorem triggerBranch_pres_mono (ctx : DetectorCtx) (d : Int) (sc : SigComp)
    (severity : String) (conf : ℚ) (incs : List Incident)
    (act lc : Option Nat) {i : Nat} {inc : Incident}
    (h : incs.get? i = some inc) (hδ : 0 ≤ sc.deltaNF) :
    ∃ inc', (triggerBranch ctx d sc severity conf incs act lc).1.get? i = some inc' ∧
      inc.max_deltaNF ≤ inc'.max_deltaNF ∧
      inc.volume_lost_kL ≤ inc'.volume_lost_kL ∧
      inc.days_persisted ≤ inc'.days_persisted := by
  have hext : ∀ (g : Incident → Incident),
      (∀ a : Incident, (g a).max_deltaNF = a.max_deltaNF ∧
        (g a).volume_lost_kL = a.volume_lost_kL ∧
        a.days_persisted ≤ (g a).days_persisted) →
      ∀ a : Incident,
        a.max_deltaNF ≤ (applyUpdates ctx.cfg d sc severity conf (g a)).max_deltaNF ∧
        a.volume_lost_kL ≤ (applyUpdates ctx.cfg d sc severity conf (g a)).volume_lost_kL ∧
        a.days_persisted ≤ (applyUpdates ctx.cfg d sc severity conf (g a)).days_persisted := by
    intro g hg a
    obtain ⟨hm, hv, hd⟩ := hg a
    obtain ⟨hm2, hv2, hd2⟩ := applyUpdates_mono ctx.cfg d sc severity conf (g a) hδ
    exact ⟨hm ▸ hm2, hv ▸ hv2, le_trans hd hd2⟩
  unfold triggerBranch
  cases act with
  | none => exact append_pres_mono _ h
  | some i0 =>
      dsimp only
      cases hg0 : incs.get? i0 with
      | none => exact ⟨inc, h, le_refl _, le_refl _, le_refl _⟩
      | some inc0 =>
          dsimp only
          split_ifs with hgap1 hgap2
          · refine listModify_pres_mono i0 (hext _ ?_) h
            intro a
            refine ⟨rfl, rfl, ?_⟩
            show a.days_persisted ≤ a.days_persisted + 1
            omega
          · refine listModify_pres_mono i0 (hext _ ?_) h
            intro a
            refine ⟨rfl, rfl, ?_⟩
            show a.days_persisted ≤
              a.days_persisted + 1 + pyMaxI 0 (d - inc0.last_day - 1)
            have := pyMaxI_left_le 0 (d - inc0.last_day - 1)
            omega
          · cases lc with
            | none => exact append_pres_mono _ h
            | some j =>
                dsimp only
                cases hlc : incs.get? j with
                | none => exact append_pres_mono _ h
                | some lcInc =>
                    dsimp only
                    split_ifs with hin
                    · refine listModify_pres_mono j (hext _ ?_) h
                      intro a
                      refine ⟨rfl, rfl, ?_⟩
                      show a.days_persisted ≤
                        a.days_persisted + 1 + pyMaxI 0 (d - lcInc.last_day - 1)
                      have := pyMaxI_left_le 0 (d - lcInc.last_day - 1)
                      omega
                    · exact append_pres_mono _ h

theorem closureCheck_pres_mono (θ : ℚ) (sc : SigComp) (incs : List Incident)
    (act : Option Nat) {i : Nat} {inc : Incident}
    (h : incs.get? i = some inc) :
    ∃ inc', (closureCheck θ sc incs act).1.get? i = some inc' ∧
      inc.max_deltaNF ≤ inc'.max_deltaNF ∧
      inc.volume_lost_kL ≤ inc'.volume_lost_kL ∧
      inc.days_persisted ≤ inc'.days_persisted := by
  unfold closureCheck
  cases act with
  | none => exact ⟨inc, h, le_refl _, le_refl _, le_refl _⟩
  | some a =>
      dsimp only
      cases ha : incs.get? a with
      | none => exact ⟨inc, h, le_refl _, le_refl _, le_refl _⟩
      | some ainc =>
          dsimp only
          split_ifs with hw hc
          · refine listModify_pres_mono a ?_ h
            intro b
            exact ⟨le_refl _, le_refl _, le_refl _⟩
          · exact ⟨inc, h, le_refl _, le_refl _, le_refl _⟩
          · exact ⟨inc, h, le_refl _, le_refl _, le_refl _⟩

theorem closeActive_pres_mono (incs : List Incident)
    (act : Option Nat) {i : Nat} {inc : Incident}
    (h : incs.get? i = some inc) :
    ∃ inc', (closeActive incs act).1.get? i = some inc' ∧
      inc.max_deltaNF ≤ inc'.max_deltaNF ∧
      inc.volume_lost_kL ≤ inc'.volume_lost_kL ∧
      inc.days_persisted ≤ inc'.days_persisted := by
  unfold closeActive
  cases act with
  | none => exact ⟨inc, h, le_refl _, le_refl _, le_refl _⟩
  | some a =>
      dsimp only
      cases ha : incs.get? a with
      | none => exact ⟨inc, h, le_refl _, le_refl _, le_refl _⟩
      | some ainc =>
          dsimp only
          split_ifs with hw
          · refine listModify_pres_mono a ?_ h
            intro b
            exact ⟨le_refl _, le_refl _, le_refl _⟩
          · exact ⟨inc, h, le_refl _, le_refl _, le_refl _⟩

theorem stepDay_sigMap_nonneg {ctx : DetectorCtx} {θ : ℚ} {day0 : Int}
    {st : MState} {d : Int} (h : sigMapNonneg st.sigMap) :
    sigMapNonneg (stepDay ctx θ day0 st d).sigMap := by
  unfold stepDay
  split
  · exact h
  · dsimp only
    split
    · exact (resolveSig_nonneg h).2
    · split
      · exact (resolveSig_nonneg h).2
      · exact (resolveSig_nonneg h).2

theorem stepDay_pres_mono {ctx : DetectorCtx} {θ : ℚ} {day0 : Int}
    {st : MState} {d : Int} {i : Nat} {inc : Incident}
    (hmap : sigMapNonneg st.sigMap)
    (h : st.incidents.get? i = some inc) :
    ∃ inc', (stepDay ctx θ day0 st d).incidents.get? i = some inc' ∧
      inc.max_deltaNF ≤ inc'.max_deltaNF ∧
      inc.volume_lost_kL ≤ inc'.volume_lost_kL ∧
      inc.days_persisted ≤ inc'.days_persisted := by
  unfold stepDay
  split
  · exact ⟨inc, h, le_refl _, le_refl _, le_refl _⟩
  · dsimp only
    split
    · exact ⟨inc, h, le_refl _, le_refl _, le_refl _⟩
    · split
      · obtain ⟨inc1, hg1, hm1, hv1, hd1⟩ := triggerBranch_pres_mono ctx d _ _ _
          st.incidents st.active st.lastCommitted h (resolveSig_nonneg hmap).1
        obtain ⟨inc2, hg2, hm2, hv2, hd2⟩ := closureCheck_pres_mono θ _ _ _ hg1
        exact ⟨inc2, hg2, le_trans hm1 hm2, le_trans hv1 hv2, le_trans hd1 hd2⟩
      · exact closeActive_pres_mono st.incidents st.active h

theorem runDays_pres_mono {ctx : DetectorCtx} {θ : ℚ} {day0 : Int}
    {st : MState} {ds : List Int} {i : Nat} {inc : Incident}
    (hmap : sigMapNonneg st.sigMap)
    (h : st.incidents.get? i = some inc) :
    ∃ inc', (runDays ctx θ day0 st ds).incidents.get? i = some inc' ∧
      inc.max_deltaNF ≤ inc'.max_deltaNF ∧
      inc.volume_lost_kL ≤ inc'.volume_lost_kL ∧
      inc.days_persisted ≤ inc'.days_persisted := by
  induction ds generalizing st inc with
  | nil => exact ⟨inc, h, le_refl _, le_refl _, le_refl _⟩
  | cons x xs ih =>
      obtain ⟨inc1, hg1, hm1, hv1, hd1⟩ := stepDay_pres_mono hmap h
      obtain ⟨inc2, hg2, hm2, hv2, hd2⟩ := ih (stepDay_sigMap_nonneg hmap) hg1
      exact ⟨inc2, hg2, le_trans hm1 hm2, le_trans hv1 hv2, le_trans hd1 hd2⟩

end Leak

/-- C8: from any loop state whose restored signal cache holds only
non-negative deltaNF values (true of every cache the machine itself
produces, since it stores `max(0, NF_d - NF_base)`), every incident's
`max_deltaNF`, `volume_lost_kL` and `days_persisted` are non-decreasing
over the remaining processed days of the run. -/
theorem c8_accumulator_monotonic (ctx : Leak.DetectorCtx) (θ : ℚ) (day0 : Int)
    (st : Leak.MState) (ds : List Int) (i : Nat) (inc : Leak.Incident)
    (hmap : Leak.sigMapNonneg st.sigMap)
    (h : st.incidents.get? i = some inc) :
    ∃ inc', (Leak.runDays ctx θ day0 st ds).incidents.get? i = some inc' ∧
      inc.max_deltaNF ≤ inc'.max_deltaNF ∧
      inc.volume_lost_kL ≤ inc'.volume_lost_kL ∧
      inc.days_persisted ≤ inc'.days_persisted :=
  Leak.runDays_pres_mono hmap h

/-- Witness for C8: a standing WATCH incident's accumulators do not
decrease over a further processed day. -/
theorem c8_accumulator_monotonic_witness :
    ∃ inc', (Leak.runDays Leak.ctxC2 1 1 Leak.stW8 [12]).incidents.get? 0 =
        some inc' ∧
      Leak.incW8.max_deltaNF ≤ inc'.max_deltaNF ∧
      Leak.incW8.volume_lost_kL ≤ inc'.volume_lost_kL ∧
      Leak.incW8.days_persisted ≤ inc'.days_persisted :=
  c8_accumulator_monotonic Leak.ctxC2 1 1 Leak.stW8 [12] 0 Leak.incW8
    (by decide) (by decide)
